import Mathlib

/-!
# terraform-provider-windowsca: provider configuration

A shallow embedding of `windowsca/provider.go` (`windowscaProvider.Schema` and
`windowscaProvider.Configure`) together with the small part of
terraform-plugin-framework that `Configure` drives: tri-state string values,
attribute paths and the diagnostics collection.

`Configure` mutates the response it is handed; here it is a function from the
response before the call to the response after it.  The process environment
read through `os.Getenv` and the external `windowsca.NewClient` constructor
are explicit arguments.  The result also records two observations of the run
that the Go code does not return: the values of the locals `host`, `username`
and `password` once the merge at lines 104-118 has been executed, and the
argument triples of the calls made to `NewClient`.
-/

namespace windowsca

/-! ## terraform-plugin-framework: `types.String` -/

namespace types

/-- The framework's `types.String`: null (not provided), unknown (not yet
resolvable) or a known string (the spec writes `Set(v)`). -/
inductive StringValue where
  | Null
  | Unknown
  | Known (value : String)
  deriving DecidableEq, Repr

/-- Method `IsNull`: true exactly on the null state. -/
def StringValue.IsNull : StringValue → Bool
  | .Null => true
  | _ => false

/-- Method `IsUnknown`: true exactly on the unknown state. -/
def StringValue.IsUnknown : StringValue → Bool
  | .Unknown => true
  | _ => false

/-- Method `ValueString`: the known string, and the empty string for a null or
unknown value. -/
def StringValue.ValueString : StringValue → String
  | .Known v => v
  | _ => ""

end types

/-! ## terraform-plugin-framework: `path` and `diag` -/

namespace path

/-- An attribute path, as the sequence of its step names. -/
abbrev Path := List String

/-- The path `path.Root(name)`: the single root attribute `name`. -/
def Root (name : String) : Path := [name]

end path

namespace diag

/-- Severity of a diagnostic. -/
inductive Severity where
  | Error
  | Warning
  deriving DecidableEq, Repr

/-- A diagnostic: severity, summary (title), detail and, for an attribute
diagnostic, the path of the attribute. -/
structure Diagnostic where
  Severity : Severity
  Summary : String
  Detail : String
  Path : Option path.Path
  deriving DecidableEq, Repr

/-- The framework's `diag.Diagnostics`: an ordered collection. -/
abbrev Diagnostics := List Diagnostic

/-- Constructor `diag.NewErrorDiagnostic`. -/
def NewErrorDiagnostic (summary detail : String) : Diagnostic :=
  { Severity := .Error, Summary := summary, Detail := detail, Path := none }

/-- Constructor `diag.NewAttributeErrorDiagnostic`. -/
def NewAttributeErrorDiagnostic (p : path.Path) (summary detail : String) : Diagnostic :=
  { Severity := .Error, Summary := summary, Detail := detail, Path := some p }

/-- Method `Contains`: some member of the collection equals the diagnostic. -/
def Diagnostics.Contains (diags : Diagnostics) (d : Diagnostic) : Bool :=
  diags.any (fun x => decide (x = d))

/-- Method `Append`: adds the given diagnostics in order, skipping one that the
collection already contains. -/
def Diagnostics.Append (diags : Diagnostics) (new : List Diagnostic) : Diagnostics :=
  new.foldl (fun acc d => if Diagnostics.Contains acc d then acc else acc ++ [d]) diags

/-- Method `HasError`: some member has severity error. -/
def Diagnostics.HasError (diags : Diagnostics) : Bool :=
  diags.any (fun d => decide (d.Severity = Severity.Error))

/-- Method `AddAttributeError`: appends a new attribute error diagnostic. -/
def Diagnostics.AddAttributeError (diags : Diagnostics) (p : path.Path)
    (summary detail : String) : Diagnostics :=
  Diagnostics.Append diags [NewAttributeErrorDiagnostic p summary detail]

/-- Method `AddError`: appends a new error diagnostic without a path. -/
def Diagnostics.AddError (diags : Diagnostics) (summary detail : String) : Diagnostics :=
  Diagnostics.Append diags [NewErrorDiagnostic summary detail]

end diag

open diag (Diagnostic Diagnostics)

/-! ## Environment -/

namespace os

/-- A snapshot of the process environment: variable name to value, or absent. -/
abbrev Env := String → Option String

/-- Go's `os.Getenv`: the value of the variable, empty when it is not present. -/
def Getenv (env : Env) (key : String) : String :=
  match env key with
  | some v => v
  | none => ""

end os

/-! ## The provider -/

/-- The provider configuration model (`windowscaProviderModel`). -/
structure windowscaProviderModel where
  WinrmHostname : types.StringValue
  WinrmUsername : types.StringValue
  WinrmPassword : types.StringValue
  deriving DecidableEq, Repr

/-- A `schema.StringAttribute` with the flags the provider schema uses; a flag
that the source leaves out has Go's zero value `false`. -/
structure StringAttribute where
  Required : Bool := false
  Optional : Bool := false
  Sensitive : Bool := false
  deriving DecidableEq, Repr

/-- The attributes of the schema set by `windowscaProvider.Schema`, in source
order. -/
def Schema : List (String × StringAttribute) :=
  [ ("winrm_hostname", { Optional := true }),
    ("winrm_username", { Optional := true }),
    ("winrm_password", { Optional := true, Sensitive := true }) ]

/-- The request of `Configure`, as far as `Configure` reads it: the outcome of
`req.Config.Get(ctx, &config)`, i.e. the decoded model and the diagnostics the
decoding returned. -/
structure ConfigureRequest where
  Config : windowscaProviderModel
  diags : Diagnostics

/-- The response of `Configure`: the diagnostics and the two client slots. -/
structure ConfigureResponse (Client : Type) where
  Diagnostics : Diagnostics
  DataSourceData : Option Client
  ResourceData : Option Client

/-- The signature of the external `windowsca.NewClient`: a client, or the text
of the error it returns. -/
abbrev ClientConstructor (Client : Type) := String → String → String → Except String Client

/-- A run of `Configure`: the response after the call, the locals `host`,
`username`, `password` as they stand after line 118 (`none` when the run
returned before the merge), and the arguments of every `NewClient` call. -/
structure Run (Client : Type) where
  resp : ConfigureResponse Client
  merged : Option (String × String × String)
  calls : List (String × String × String)

/-- The attribute error that lines 71-76 add. -/
def unknownHostname : Diagnostic :=
  diag.NewAttributeErrorDiagnostic (path.Root "winrm_hostname")
    "Unknown Windows WinRM Host"
    ("The provider cannot create the Windows WinRM client as there is an unknown configuration value for the Windows WinRM host. " ++
      "Either target apply the source of the value first, set the value statically in the configuration, or use the WINDOWSCA_HOSTNAME environment variable.")

/-- The attribute error that lines 80-85 add. -/
def unknownUsername : Diagnostic :=
  diag.NewAttributeErrorDiagnostic (path.Root "winrm_username")
    "Unknown Windows WinRM Username"
    ("The provider cannot create the Windows WinRM client as there is an unknown configuration value for the Windows WinRM username. " ++
      "Either target apply the source of the value first, set the value statically in the configuration, or use the WINDOWSCA_USERNAME environment variable.")

/-- The attribute error that lines 89-94 add. -/
def unknownPassword : Diagnostic :=
  diag.NewAttributeErrorDiagnostic (path.Root "winrm_password")
    "Unknown Windows WinRM Password"
    ("The provider cannot create the Windows WinRM client as there is an unknown configuration value for the Windows WinRM password. " ++
      "Either target apply the source of the value first, set the value statically in the configuration, or use the WINDOWSCA_PASSWORD environment variable.")

/-- The attribute error that lines 124-130 add. -/
def missingHostname : Diagnostic :=
  diag.NewAttributeErrorDiagnostic (path.Root "host")
    "Missing Windows WinRM Host"
    ("The provider cannot create the Windows WinRM client as there is a missing or empty value for the Windows WinRM host. " ++
      "Set the host value in the configuration or use the WINDOWSCA_HOSTNAME environment variable. " ++
      "If either is already set, ensure the value is not empty.")

/-- The attribute error that lines 134-140 add. -/
def missingUsername : Diagnostic :=
  diag.NewAttributeErrorDiagnostic (path.Root "username")
    "Missing Windows WinRM Username"
    ("The provider cannot create the Windows WinRM client as there is a missing or empty value for the Windows WinRM username. " ++
      "Set the username value in the configuration or use the WINDOWSCA_USERNAME environment variable. " ++
      "If either is already set, ensure the value is not empty.")

/-- The attribute error that lines 144-150 add. -/
def missingPassword : Diagnostic :=
  diag.NewAttributeErrorDiagnostic (path.Root "password")
    "Missing Windows WinRM Password"
    ("The provider cannot create the Windows WinRM client as there is a missing or empty value for the Windows WinRM password. " ++
      "Set the password value in the configuration or use the WINDOWSCA_PASSWORD environment variable. " ++
      "If either is already set, ensure the value is not empty.")

/-- The error that lines 160-165 add, for the constructor error text `err`. -/
def clientError (err : String) : Diagnostic :=
  diag.NewErrorDiagnostic
    "Unable to Create Windows WinRM Client"
    ("An unexpected error occurred when creating the Windows WinRM client. " ++
      "If the error is not clear, please contact the provider developers.\n\n" ++
      "Windows WinRM Client Error: " ++ err)

/-- The unknown-value errors expected for a configuration: one per unknown
attribute, in the order hostname, username, password. -/
def unknownErrors (config : windowscaProviderModel) : List Diagnostic :=
  (if config.WinrmHostname.IsUnknown then [unknownHostname] else []) ++
  (if config.WinrmUsername.IsUnknown then [unknownUsername] else []) ++
  (if config.WinrmPassword.IsUnknown then [unknownPassword] else [])

/-- The missing-value errors expected for three merged values: one per empty
value, in the order hostname, username, password. -/
def missingErrors (host username password : String) : List Diagnostic :=
  (if host = "" then [missingHostname] else []) ++
  (if username = "" then [missingUsername] else []) ++
  (if password = "" then [missingPassword] else [])

/-- Lines 70-95 of `Configure`: one attribute error per unknown attribute. -/
def unknownGate (config : windowscaProviderModel) (diags : Diagnostics) : Diagnostics :=
  let diags :=
    if config.WinrmHostname.IsUnknown then
      Diagnostics.AddAttributeError diags
        (path.Root "winrm_hostname")
        "Unknown Windows WinRM Host"
        ("The provider cannot create the Windows WinRM client as there is an unknown configuration value for the Windows WinRM host. " ++
          "Either target apply the source of the value first, set the value statically in the configuration, or use the WINDOWSCA_HOSTNAME environment variable.")
    else diags
  let diags :=
    if config.WinrmUsername.IsUnknown then
      Diagnostics.AddAttributeError diags
        (path.Root "winrm_username")
        "Unknown Windows WinRM Username"
        ("The provider cannot create the Windows WinRM client as there is an unknown configuration value for the Windows WinRM username. " ++
          "Either target apply the source of the value first, set the value statically in the configuration, or use the WINDOWSCA_USERNAME environment variable.")
    else diags
  let diags :=
    if config.WinrmPassword.IsUnknown then
      Diagnostics.AddAttributeError diags
        (path.Root "winrm_password")
        "Unknown Windows WinRM Password"
        ("The provider cannot create the Windows WinRM client as there is an unknown configuration value for the Windows WinRM password. " ++
          "Either target apply the source of the value first, set the value statically in the configuration, or use the WINDOWSCA_PASSWORD environment variable.")
    else diags
  diags

/-- Lines 104-118 of `Configure`: the environment values, overridden by every
configuration value that is not null. -/
def mergeValues (config : windowscaProviderModel) (env : os.Env) : String × String × String :=
  let host := os.Getenv env "WINDOWSCA_HOSTNAME"
  let username := os.Getenv env "WINDOWSCA_USERNAME"
  let password := os.Getenv env "WINDOWSCA_PASSWORD"
  let host := if !config.WinrmHostname.IsNull then config.WinrmHostname.ValueString else host
  let username := if !config.WinrmUsername.IsNull then config.WinrmUsername.ValueString else username
  let password := if !config.WinrmPassword.IsNull then config.WinrmPassword.ValueString else password
  (host, username, password)

/-- Lines 123-151 of `Configure`: one attribute error per empty merged value. -/
def presenceGate (host username password : String) (diags : Diagnostics) : Diagnostics :=
  let diags :=
    if host = "" then
      Diagnostics.AddAttributeError diags
        (path.Root "host")
        "Missing Windows WinRM Host"
        ("The provider cannot create the Windows WinRM client as there is a missing or empty value for the Windows WinRM host. " ++
          "Set the host value in the configuration or use the WINDOWSCA_HOSTNAME environment variable. " ++
          "If either is already set, ensure the value is not empty.")
    else diags
  let diags :=
    if username = "" then
      Diagnostics.AddAttributeError diags
        (path.Root "username")
        "Missing Windows WinRM Username"
        ("The provider cannot create the Windows WinRM client as there is a missing or empty value for the Windows WinRM username. " ++
          "Set the username value in the configuration or use the WINDOWSCA_USERNAME environment variable. " ++
          "If either is already set, ensure the value is not empty.")
    else diags
  let diags :=
    if password = "" then
      Diagnostics.AddAttributeError diags
        (path.Root "password")
        "Missing Windows WinRM Password"
        ("The provider cannot create the Windows WinRM client as there is a missing or empty value for the Windows WinRM password. " ++
          "Set the password value in the configuration or use the WINDOWSCA_PASSWORD environment variable. " ++
          "If either is already set, ensure the value is not empty.")
    else diags
  diags

/-- The method `windowscaProvider.Configure` (lines 58-173). -/
def Configure {Client : Type} (NewClient : ClientConstructor Client) (env : os.Env)
    (req : ConfigureRequest) (resp : ConfigureResponse Client) : Run Client :=
  let config := req.Config
  let resp := { resp with Diagnostics := Diagnostics.Append resp.Diagnostics req.diags }
  if resp.Diagnostics.HasError then
    { resp := resp, merged := none, calls := [] }
  else
  let resp := { resp with Diagnostics := unknownGate config resp.Diagnostics }
  if resp.Diagnostics.HasError then
    { resp := resp, merged := none, calls := [] }
  else
  let (host, username, password) := mergeValues config env
  let resp := { resp with Diagnostics := presenceGate host username password resp.Diagnostics }
  if resp.Diagnostics.HasError then
    { resp := resp, merged := some (host, username, password), calls := [] }
  else
  match NewClient host username password with
  | .error err =>
    let resp := { resp with Diagnostics :=
      (Diagnostics.AddError resp.Diagnostics
        "Unable to Create Windows WinRM Client"
        ("An unexpected error occurred when creating the Windows WinRM client. " ++
          "If the error is not clear, please contact the provider developers.\n\n" ++
          "Windows WinRM Client Error: " ++ err)) }
    { resp := resp,
      merged := some (host, username, password),
      calls := [(host, username, password)] }
  | .ok client =>
    let resp := { resp with DataSourceData := some client }
    let resp := { resp with ResourceData := some client }
    { resp := resp,
      merged := some (host, username, password),
      calls := [(host, username, password)] }

/-- The diagnostics of the response once the decoding diagnostics have been
appended (line 62). -/
def decoded {Client : Type} (req : ConfigureRequest) (resp : ConfigureResponse Client) :
    Diagnostics :=
  Diagnostics.Append resp.Diagnostics req.diags

/-- The diagnostics that a run added after the decoding diagnostics. -/
def appended {Client : Type} (req : ConfigureRequest) (resp : ConfigureResponse Client)
    (run : Run Client) : List Diagnostic :=
  run.resp.Diagnostics.drop (decoded req resp).length

/-- No attribute of the configuration is unknown. -/
def allKnown (config : windowscaProviderModel) : Prop :=
  config.WinrmHostname.IsUnknown = false ∧ config.WinrmUsername.IsUnknown = false ∧
    config.WinrmPassword.IsUnknown = false

instance (config : windowscaProviderModel) : Decidable (allKnown config) := by
  unfold allKnown; infer_instance

/-- Precedence of one field, in the words of the spec: `value` is `v` when the
attribute is the known value `v`; it is `e` when the attribute is null and the
environment variable holds `e`; it is empty when the attribute is null and the
variable is absent. -/
def obeysPrecedence (attr : types.StringValue) (var : Option String) (value : String) : Prop :=
  (∀ v, attr = .Known v → value = v) ∧
  (∀ e, attr = .Null → var = some e → value = e) ∧
  (attr = .Null → var = none → value = "")

/-- A response as the framework hands it to `Configure`: no diagnostics, both
slots unset. -/
def freshResponse (Client : Type) : ConfigureResponse Client :=
  { Diagnostics := [], DataSourceData := none, ResourceData := none }

/-- A constructor that always succeeds, returning its arguments as the handle. -/
def echoClient : ClientConstructor (String × String × String) :=
  fun host username password => .ok (host, username, password)

/-- A constructor that always fails with the error text `boom`. -/
def boomClient : ClientConstructor (String × String × String) :=
  fun _ _ _ => .error "boom"

/-- The empty environment. -/
def emptyEnv : os.Env := fun _ => none

/-- The environment that sets only `WINDOWSCA_USERNAME`, to `u`. -/
def usernameEnv : os.Env := fun key => if key = "WINDOWSCA_USERNAME" then some "u" else none

/-- The request that decodes without diagnostics to the given attributes. -/
def requestOf (hostname username password : types.StringValue) : ConfigureRequest :=
  { Config := { WinrmHostname := hostname, WinrmUsername := username, WinrmPassword := password },
    diags := [] }

/-- An unknown-value error: one of the three errors of lines 70-95. -/
def isUnknownValueError (d : Diagnostic) : Prop :=
  d = unknownHostname ∨ d = unknownUsername ∨ d = unknownPassword

/-- A missing-value error: one of the three errors of lines 123-151. -/
def isMissingValueError (d : Diagnostic) : Prop :=
  d = missingHostname ∨ d = missingUsername ∨ d = missingPassword

/-- A client-construction error: the error of lines 160-165 for some text. -/
def isClientError (d : Diagnostic) : Prop :=
  ∃ err : String, d = clientError err

/-- The error text of a constructor outcome, `none` for a success. -/
def errorText {Client : Type} : Except String Client → Option String
  | .error err => some err
  | .ok _ => none

/-- The environment that sets `WINDOWSCA_USERNAME` to `u` and `HOME` to `/root`. -/
def otherEnv : os.Env := fun key =>
  if key = "WINDOWSCA_USERNAME" then some "u" else if key = "HOME" then some "/root" else none

/-- The three fields of the provider configuration. -/
inductive Field where
  | hostname
  | username
  | password
  deriving DecidableEq, Repr

/-- The environment variable that lines 104-106 read for a field. -/
def Field.envVar : Field → String
  | .hostname => "WINDOWSCA_HOSTNAME"
  | .username => "WINDOWSCA_USERNAME"
  | .password => "WINDOWSCA_PASSWORD"

/-- The attribute of a field in the configuration model. -/
def Field.attr (config : windowscaProviderModel) : Field → types.StringValue
  | .hostname => config.WinrmHostname
  | .username => config.WinrmUsername
  | .password => config.WinrmPassword

/-- The component of a field in a merged triple `(host, username, password)`. -/
def Field.merged (values : String × String × String) : Field → String
  | .hostname => values.1
  | .username => values.2.1
  | .password => values.2.2

/-- The unknown-value error that the check of a field's attribute adds
(lines 70-77, 79-86, 88-95). -/
def unknownErrorOf : Field → Diagnostic
  | .hostname => unknownHostname
  | .username => unknownUsername
  | .password => unknownPassword

/-- The missing-value error that the check of a field's merged value adds
(lines 123-131, 133-141, 143-151). -/
def missingErrorOf : Field → Diagnostic
  | .hostname => missingHostname
  | .username => missingUsername
  | .password => missingPassword

/-- The text contains the name as a contiguous run of characters. -/
def mentions (text name : String) : Prop :=
  name.data <:+: text.data

instance (text name : String) : Decidable (mentions text name) := by
  unfold mentions; infer_instance

/-- A request whose decoding returned one error diagnostic and one warning;
all three attributes are null. -/
def failedRequest : ConfigureRequest :=
  { Config := { WinrmHostname := .Null, WinrmUsername := .Null, WinrmPassword := .Null },
    diags := [ { Severity := .Warning, Summary := "Deprecated", Detail := "w", Path := none },
               diag.NewErrorDiagnostic "Value Conversion Error" "e" ] }

/-! ## Lemmas on the diagnostics collection -/

theorem append_single (l : Diagnostics) (d : Diagnostic) :
    Diagnostics.Append l [d] = if Diagnostics.Contains l d then l else l ++ [d] := rfl

theorem hasError_append (l m : Diagnostics) :
    Diagnostics.HasError (l ++ m) = (Diagnostics.HasError l || Diagnostics.HasError m) := by
  simp [Diagnostics.HasError]

theorem contains_eq_false_of_hasError_false (l : Diagnostics) (d : Diagnostic)
    (hl : Diagnostics.HasError l = false) (hd : d.Severity = diag.Severity.Error) :
    Diagnostics.Contains l d = false := by
  simp only [Diagnostics.HasError, Diagnostics.Contains, List.any_eq_false,
    decide_eq_true_eq] at hl ⊢
  intro x hx hxd
  exact hl x hx (hxd ▸ hd)

theorem contains_append (l m : Diagnostics) (d : Diagnostic) :
    Diagnostics.Contains (l ++ m) d = (Diagnostics.Contains l d || Diagnostics.Contains m d) := by
  simp [Diagnostics.Contains]

/-- Appending an error that is not among `m` to `l ++ m`, where `l` holds no
error, puts it at the end. -/
theorem append_error_fresh (l m : Diagnostics) (d : Diagnostic)
    (hl : Diagnostics.HasError l = false) (hd : d.Severity = diag.Severity.Error)
    (hm : d ∉ m) :
    Diagnostics.Append (l ++ m) [d] = l ++ (m ++ [d]) := by
  have h2 : Diagnostics.Contains m d = false := by
    simp only [Diagnostics.Contains, List.any_eq_false, decide_eq_true_eq]
    intro x hx hxd
    exact hm (hxd ▸ hx)
  rw [append_single, contains_append, contains_eq_false_of_hasError_false l d hl hd, h2]
  simp

/-! ## The two gates -/

theorem unknownUsername_ne_unknownHostname : unknownUsername ≠ unknownHostname := by decide

theorem unknownPassword_ne_unknownHostname : unknownPassword ≠ unknownHostname := by decide

theorem unknownPassword_ne_unknownUsername : unknownPassword ≠ unknownUsername := by decide

theorem missingUsername_ne_missingHostname : missingUsername ≠ missingHostname := by decide

theorem missingPassword_ne_missingHostname : missingPassword ≠ missingHostname := by decide

theorem missingPassword_ne_missingUsername : missingPassword ≠ missingUsername := by decide

/-- On a collection without error, the unknown-value gate appends exactly the
expected unknown-value errors. -/
theorem unknownGate_eq (config : windowscaProviderModel) (l : Diagnostics)
    (hl : Diagnostics.HasError l = false) :
    unknownGate config l = l ++ unknownErrors config := by
  have e1 : Diagnostics.Append l [unknownHostname] = l ++ [unknownHostname] := by
    simpa using append_error_fresh l [] unknownHostname hl rfl (by simp)
  have e2 : Diagnostics.Append l [unknownUsername] = l ++ [unknownUsername] := by
    simpa using append_error_fresh l [] unknownUsername hl rfl (by simp)
  have e3 : Diagnostics.Append l [unknownPassword] = l ++ [unknownPassword] := by
    simpa using append_error_fresh l [] unknownPassword hl rfl (by simp)
  have e12 : Diagnostics.Append (l ++ [unknownHostname]) [unknownUsername]
      = l ++ [unknownHostname, unknownUsername] := by
    simpa using append_error_fresh l [unknownHostname] unknownUsername hl rfl
      (by simp [unknownUsername_ne_unknownHostname])
  have e13 : Diagnostics.Append (l ++ [unknownHostname]) [unknownPassword]
      = l ++ [unknownHostname, unknownPassword] := by
    simpa using append_error_fresh l [unknownHostname] unknownPassword hl rfl
      (by simp [unknownPassword_ne_unknownHostname])
  have e23 : Diagnostics.Append (l ++ [unknownUsername]) [unknownPassword]
      = l ++ [unknownUsername, unknownPassword] := by
    simpa using append_error_fresh l [unknownUsername] unknownPassword hl rfl
      (by simp [unknownPassword_ne_unknownUsername])
  have e123 : Diagnostics.Append (l ++ [unknownHostname, unknownUsername]) [unknownPassword]
      = l ++ [unknownHostname, unknownUsername, unknownPassword] := by
    simpa using append_error_fresh l [unknownHostname, unknownUsername] unknownPassword hl rfl
      (by simp [unknownPassword_ne_unknownHostname, unknownPassword_ne_unknownUsername])
  simp only [unknownGate, unknownErrors, Diagnostics.AddAttributeError]
  change (let d1 := if config.WinrmHostname.IsUnknown = true then
            Diagnostics.Append l [unknownHostname] else l
          let d2 := if config.WinrmUsername.IsUnknown = true then
            Diagnostics.Append d1 [unknownUsername] else d1
          let d3 := if config.WinrmPassword.IsUnknown = true then
            Diagnostics.Append d2 [unknownPassword] else d2
          d3) = _
  cases config.WinrmHostname.IsUnknown <;> cases config.WinrmUsername.IsUnknown <;>
    cases config.WinrmPassword.IsUnknown <;>
    simp [e1, e2, e3, e12, e13, e23, e123]

/-- On a collection without error, the presence gate appends exactly the
expected missing-value errors. -/
theorem presenceGate_eq (host username password : String) (l : Diagnostics)
    (hl : Diagnostics.HasError l = false) :
    presenceGate host username password l = l ++ missingErrors host username password := by
  have e1 : Diagnostics.Append l [missingHostname] = l ++ [missingHostname] := by
    simpa using append_error_fresh l [] missingHostname hl rfl (by simp)
  have e2 : Diagnostics.Append l [missingUsername] = l ++ [missingUsername] := by
    simpa using append_error_fresh l [] missingUsername hl rfl (by simp)
  have e3 : Diagnostics.Append l [missingPassword] = l ++ [missingPassword] := by
    simpa using append_error_fresh l [] missingPassword hl rfl (by simp)
  have e12 : Diagnostics.Append (l ++ [missingHostname]) [missingUsername]
      = l ++ [missingHostname, missingUsername] := by
    simpa using append_error_fresh l [missingHostname] missingUsername hl rfl
      (by simp [missingUsername_ne_missingHostname])
  have e13 : Diagnostics.Append (l ++ [missingHostname]) [missingPassword]
      = l ++ [missingHostname, missingPassword] := by
    simpa using append_error_fresh l [missingHostname] missingPassword hl rfl
      (by simp [missingPassword_ne_missingHostname])
  have e23 : Diagnostics.Append (l ++ [missingUsername]) [missingPassword]
      = l ++ [missingUsername, missingPassword] := by
    simpa using append_error_fresh l [missingUsername] missingPassword hl rfl
      (by simp [missingPassword_ne_missingUsername])
  have e123 : Diagnostics.Append (l ++ [missingHostname, missingUsername]) [missingPassword]
      = l ++ [missingHostname, missingUsername, missingPassword] := by
    simpa using append_error_fresh l [missingHostname, missingUsername] missingPassword hl rfl
      (by simp [missingPassword_ne_missingHostname, missingPassword_ne_missingUsername])
  simp only [presenceGate, missingErrors, Diagnostics.AddAttributeError]
  change (let d1 := if host = "" then Diagnostics.Append l [missingHostname] else l
          let d2 := if username = "" then Diagnostics.Append d1 [missingUsername] else d1
          let d3 := if password = "" then Diagnostics.Append d2 [missingPassword] else d2
          d3) = _
  by_cases h1 : host = "" <;> by_cases h2 : username = "" <;> by_cases h3 : password = "" <;>
    simp [h1, h2, h3, e1, e2, e3, e12, e13, e23, e123]

/-- The expected unknown-value errors are all errors. -/
theorem hasError_unknownErrors (config : windowscaProviderModel) :
    Diagnostics.HasError (unknownErrors config) = !decide (unknownErrors config = []) := by
  unfold unknownErrors
  cases config.WinrmHostname.IsUnknown <;> cases config.WinrmUsername.IsUnknown <;>
    cases config.WinrmPassword.IsUnknown <;> rfl

/-- No unknown-value error is expected exactly when every attribute is known. -/
theorem unknownErrors_eq_nil_iff (config : windowscaProviderModel) :
    unknownErrors config = [] ↔ allKnown config := by
  unfold unknownErrors allKnown
  cases config.WinrmHostname.IsUnknown <;> cases config.WinrmUsername.IsUnknown <;>
    cases config.WinrmPassword.IsUnknown <;> simp

/-- No missing-value error is expected exactly when the three values are
non-empty. -/
theorem missingErrors_eq_nil_iff (host username password : String) :
    missingErrors host username password = [] ↔
      host ≠ "" ∧ username ≠ "" ∧ password ≠ "" := by
  unfold missingErrors
  by_cases h1 : host = "" <;> by_cases h2 : username = "" <;> by_cases h3 : password = "" <;>
    simp [h1, h2, h3]

/-- The expected missing-value errors are all errors. -/
theorem hasError_missingErrors (host username password : String) :
    Diagnostics.HasError (missingErrors host username password)
      = !decide (missingErrors host username password = []) := by
  unfold missingErrors
  by_cases h1 : host = "" <;> by_cases h2 : username = "" <;> by_cases h3 : password = "" <;>
    simp [h1, h2, h3, Diagnostics.HasError, missingHostname, missingUsername, missingPassword,
      diag.NewAttributeErrorDiagnostic]

/-! ## The five ways through `Configure` -/

/-- Decoding left an error: `Configure` returns at line 64. -/
theorem Configure_decodeError {Client : Type} (NewClient : ClientConstructor Client)
    (env : os.Env) (req : ConfigureRequest) (resp : ConfigureResponse Client)
    (hpre : Diagnostics.HasError (decoded req resp) = true) :
    Configure NewClient env req resp =
      { resp := { resp with Diagnostics := decoded req resp }, merged := none, calls := [] } := by
  unfold decoded at hpre
  simp [Configure, decoded, hpre]

/-- Some attribute is unknown: `Configure` returns at line 98. -/
theorem Configure_unknown {Client : Type} (NewClient : ClientConstructor Client)
    (env : os.Env) (req : ConfigureRequest) (resp : ConfigureResponse Client)
    (hpre : Diagnostics.HasError (decoded req resp) = false)
    (hunk : ¬ allKnown req.Config) :
    Configure NewClient env req resp =
      { resp := { resp with Diagnostics := decoded req resp ++ unknownErrors req.Config },
        merged := none, calls := [] } := by
  have hne : unknownErrors req.Config ≠ [] := fun h => hunk ((unknownErrors_eq_nil_iff _).1 h)
  have hg := unknownGate_eq req.Config _ hpre
  have he : Diagnostics.HasError (decoded req resp ++ unknownErrors req.Config) = true := by
    rw [hasError_append, hasError_unknownErrors]; simp [hne]
  unfold decoded at hpre hg he
  simp [Configure, decoded, hpre, hg, he]

/-- Every attribute is known and some merged value is empty: `Configure`
returns at line 154. -/
theorem Configure_missing {Client : Type} (NewClient : ClientConstructor Client)
    (env : os.Env) (req : ConfigureRequest) (resp : ConfigureResponse Client)
    (hpre : Diagnostics.HasError (decoded req resp) = false)
    (hk : allKnown req.Config)
    (hm : missingErrors (mergeValues req.Config env).1 (mergeValues req.Config env).2.1
            (mergeValues req.Config env).2.2 ≠ []) :
    Configure NewClient env req resp =
      { resp := { resp with Diagnostics := (decoded req resp ++
                    missingErrors (mergeValues req.Config env).1 (mergeValues req.Config env).2.1
                      (mergeValues req.Config env).2.2) },
        merged := some (mergeValues req.Config env), calls := [] } := by
  have hnil : unknownErrors req.Config = [] := (unknownErrors_eq_nil_iff _).2 hk
  have hg := unknownGate_eq req.Config _ hpre
  rw [hnil, List.append_nil] at hg
  have hp := presenceGate_eq (mergeValues req.Config env).1 (mergeValues req.Config env).2.1
    (mergeValues req.Config env).2.2 _ hpre
  have he : Diagnostics.HasError (decoded req resp ++
      missingErrors (mergeValues req.Config env).1 (mergeValues req.Config env).2.1
        (mergeValues req.Config env).2.2) = true := by
    rw [hasError_append, hasError_missingErrors]; simp [hm]
  unfold decoded at hpre hg hp he
  simp [Configure, decoded, hpre, hg, hp, he]

/-- Every attribute is known, the merged values are non-empty and the
constructor fails: `Configure` returns at line 166. -/
theorem Configure_clientError {Client : Type} (NewClient : ClientConstructor Client)
    (env : os.Env) (req : ConfigureRequest) (resp : ConfigureResponse Client)
    (hpre : Diagnostics.HasError (decoded req resp) = false)
    (hk : allKnown req.Config)
    (hm : missingErrors (mergeValues req.Config env).1 (mergeValues req.Config env).2.1
            (mergeValues req.Config env).2.2 = [])
    (err : String)
    (hc : NewClient (mergeValues req.Config env).1 (mergeValues req.Config env).2.1
            (mergeValues req.Config env).2.2 = .error err) :
    Configure NewClient env req resp =
      { resp := { resp with Diagnostics := decoded req resp ++ [clientError err] },
        merged := some (mergeValues req.Config env),
        calls := [mergeValues req.Config env] } := by
  have hnil : unknownErrors req.Config = [] := (unknownErrors_eq_nil_iff _).2 hk
  have hg := unknownGate_eq req.Config _ hpre
  rw [hnil, List.append_nil] at hg
  have hp := presenceGate_eq (mergeValues req.Config env).1 (mergeValues req.Config env).2.1
    (mergeValues req.Config env).2.2 _ hpre
  rw [hm, List.append_nil] at hp
  have ha : Diagnostics.Append (decoded req resp) [clientError err]
      = decoded req resp ++ [clientError err] := by
    simpa using append_error_fresh (decoded req resp) [] (clientError err) hpre rfl (by simp)
  unfold decoded at hpre hg hp ha
  simp [Configure, decoded, hpre, hg, hp, hc, Diagnostics.AddError]
  exact ha

/-- Every attribute is known, the merged values are non-empty and the
constructor succeeds: `Configure` runs to line 172. -/
theorem Configure_ok {Client : Type} (NewClient : ClientConstructor Client)
    (env : os.Env) (req : ConfigureRequest) (resp : ConfigureResponse Client)
    (hpre : Diagnostics.HasError (decoded req resp) = false)
    (hk : allKnown req.Config)
    (hm : missingErrors (mergeValues req.Config env).1 (mergeValues req.Config env).2.1
            (mergeValues req.Config env).2.2 = [])
    (client : Client)
    (hc : NewClient (mergeValues req.Config env).1 (mergeValues req.Config env).2.1
            (mergeValues req.Config env).2.2 = .ok client) :
    Configure NewClient env req resp =
      { resp := { Diagnostics := decoded req resp, DataSourceData := some client,
                  ResourceData := some client },
        merged := some (mergeValues req.Config env),
        calls := [mergeValues req.Config env] } := by
  have hnil : unknownErrors req.Config = [] := (unknownErrors_eq_nil_iff _).2 hk
  have hg := unknownGate_eq req.Config _ hpre
  rw [hnil, List.append_nil] at hg
  have hp := presenceGate_eq (mergeValues req.Config env).1 (mergeValues req.Config env).2.1
    (mergeValues req.Config env).2.2 _ hpre
  rw [hm, List.append_nil] at hp
  unfold decoded at hpre hg hp
  simp [Configure, decoded, hpre, hg, hp, hc]

/-! ## Merge precedence -/

theorem obeysPrecedence_host (config : windowscaProviderModel) (env : os.Env) :
    obeysPrecedence config.WinrmHostname (env "WINDOWSCA_HOSTNAME") (mergeValues config env).1 := by
  refine ⟨?_, ?_, ?_⟩
  · intro v hv; simp [mergeValues, hv, types.StringValue.IsNull, types.StringValue.ValueString]
  · intro e hn he; simp [mergeValues, hn, os.Getenv, he, types.StringValue.IsNull]
  · intro hn he; simp [mergeValues, hn, os.Getenv, he, types.StringValue.IsNull]

theorem obeysPrecedence_username (config : windowscaProviderModel) (env : os.Env) :
    obeysPrecedence config.WinrmUsername (env "WINDOWSCA_USERNAME")
      (mergeValues config env).2.1 := by
  refine ⟨?_, ?_, ?_⟩
  · intro v hv; simp [mergeValues, hv, types.StringValue.IsNull, types.StringValue.ValueString]
  · intro e hn he; simp [mergeValues, hn, os.Getenv, he, types.StringValue.IsNull]
  · intro hn he; simp [mergeValues, hn, os.Getenv, he, types.StringValue.IsNull]

theorem obeysPrecedence_password (config : windowscaProviderModel) (env : os.Env) :
    obeysPrecedence config.WinrmPassword (env "WINDOWSCA_PASSWORD")
      (mergeValues config env).2.2 := by
  refine ⟨?_, ?_, ?_⟩
  · intro v hv; simp [mergeValues, hv, types.StringValue.IsNull, types.StringValue.ValueString]
  · intro e hn he; simp [mergeValues, hn, os.Getenv, he, types.StringValue.IsNull]
  · intro hn he; simp [mergeValues, hn, os.Getenv, he, types.StringValue.IsNull]

/-- Once decoding left no error and every attribute is known, the run records
the merged values. -/
theorem Configure_merged {Client : Type} (NewClient : ClientConstructor Client)
    (env : os.Env) (req : ConfigureRequest) (resp : ConfigureResponse Client)
    (hpre : Diagnostics.HasError (decoded req resp) = false)
    (hk : allKnown req.Config) :
    (Configure NewClient env req resp).merged = some (mergeValues req.Config env) := by
  by_cases hm : missingErrors (mergeValues req.Config env).1 (mergeValues req.Config env).2.1
      (mergeValues req.Config env).2.2 = []
  · cases hc : NewClient (mergeValues req.Config env).1 (mergeValues req.Config env).2.1
        (mergeValues req.Config env).2.2 with
    | error err => rw [Configure_clientError NewClient env req resp hpre hk hm err hc]
    | ok client => rw [Configure_ok NewClient env req resp hpre hk hm client hc]
  · rw [Configure_missing NewClient env req resp hpre hk hm]

/-- C1 (merge precedence). When decoding left no error and no attribute is
unknown, `Configure` computes merged values `host`, `username`, `password`
such that, for each of the three fields on its own: the merged value is `v`
when the attribute is the known value `v`, whatever the environment holds; it
is `e` when the attribute is null and the field's environment variable holds
`e`; and it is the empty string when the attribute is null and the variable is
absent. -/
theorem C1_merge_precedence {Client : Type} (NewClient : ClientConstructor Client)
    (env : os.Env) (req : ConfigureRequest) (resp : ConfigureResponse Client)
    (hpre : Diagnostics.HasError (decoded req resp) = false)
    (hk : allKnown req.Config) :
    ∃ host username password : String,
      (Configure NewClient env req resp).merged = some (host, username, password) ∧
      obeysPrecedence req.Config.WinrmHostname (env "WINDOWSCA_HOSTNAME") host ∧
      obeysPrecedence req.Config.WinrmUsername (env "WINDOWSCA_USERNAME") username ∧
      obeysPrecedence req.Config.WinrmPassword (env "WINDOWSCA_PASSWORD") password :=
  ⟨(mergeValues req.Config env).1, (mergeValues req.Config env).2.1,
    (mergeValues req.Config env).2.2, Configure_merged NewClient env req resp hpre hk,
    obeysPrecedence_host _ _, obeysPrecedence_username _ _, obeysPrecedence_password _ _⟩

/-- C1 at hostname `h` and password `p` set, username null, and the environment
holding only `WINDOWSCA_USERNAME = u`: the merged values are `h`, `u`, `p`. -/
theorem C1_merge_precedence_witness :
    Diagnostics.HasError (decoded (requestOf (.Known "h") .Null (.Known "p"))
        (freshResponse (String × String × String))) = false ∧
      allKnown (requestOf (.Known "h") .Null (.Known "p")).Config ∧
      (Configure echoClient usernameEnv (requestOf (.Known "h") .Null (.Known "p"))
        (freshResponse _)).merged = some ("h", "u", "p") := by
  refine ⟨rfl, by decide, ?_⟩
  obtain ⟨host, username, password, hrun, hh, hu, hp⟩ :=
    C1_merge_precedence echoClient usernameEnv (requestOf (.Known "h") .Null (.Known "p"))
      (freshResponse _) rfl (by decide)
  rw [hrun, hh.1 "h" rfl, hu.2.1 "u" rfl (by decide), hp.1 "p" rfl]

/-! ## Classification of the runs -/

/-- Every run of `Configure` takes one of the five ways. -/
theorem Configure_cases {Client : Type} (NewClient : ClientConstructor Client)
    (env : os.Env) (req : ConfigureRequest) (resp : ConfigureResponse Client) :
    (Diagnostics.HasError (decoded req resp) = true ∧
      Configure NewClient env req resp =
        { resp := { resp with Diagnostics := decoded req resp }, merged := none, calls := [] }) ∨
    (Diagnostics.HasError (decoded req resp) = false ∧ ¬ allKnown req.Config ∧
      Configure NewClient env req resp =
        { resp := { resp with Diagnostics := decoded req resp ++ unknownErrors req.Config },
          merged := none, calls := [] }) ∨
    (Diagnostics.HasError (decoded req resp) = false ∧ allKnown req.Config ∧
      missingErrors (mergeValues req.Config env).1 (mergeValues req.Config env).2.1
        (mergeValues req.Config env).2.2 ≠ [] ∧
      Configure NewClient env req resp =
        { resp := { resp with Diagnostics := (decoded req resp ++
                      missingErrors (mergeValues req.Config env).1
                        (mergeValues req.Config env).2.1 (mergeValues req.Config env).2.2) },
          merged := some (mergeValues req.Config env), calls := [] }) ∨
    (∃ err : String, Diagnostics.HasError (decoded req resp) = false ∧ allKnown req.Config ∧
      missingErrors (mergeValues req.Config env).1 (mergeValues req.Config env).2.1
        (mergeValues req.Config env).2.2 = [] ∧
      NewClient (mergeValues req.Config env).1 (mergeValues req.Config env).2.1
        (mergeValues req.Config env).2.2 = .error err ∧
      Configure NewClient env req resp =
        { resp := { resp with Diagnostics := decoded req resp ++ [clientError err] },
          merged := some (mergeValues req.Config env),
          calls := [mergeValues req.Config env] }) ∨
    (∃ client : Client, Diagnostics.HasError (decoded req resp) = false ∧ allKnown req.Config ∧
      missingErrors (mergeValues req.Config env).1 (mergeValues req.Config env).2.1
        (mergeValues req.Config env).2.2 = [] ∧
      NewClient (mergeValues req.Config env).1 (mergeValues req.Config env).2.1
        (mergeValues req.Config env).2.2 = .ok client ∧
      Configure NewClient env req resp =
        { resp := { Diagnostics := decoded req resp, DataSourceData := some client,
                    ResourceData := some client },
          merged := some (mergeValues req.Config env),
          calls := [mergeValues req.Config env] }) := by
  cases hpre : Diagnostics.HasError (decoded req resp) with
  | true => exact Or.inl ⟨rfl, Configure_decodeError NewClient env req resp hpre⟩
  | false =>
    by_cases hk : allKnown req.Config
    · by_cases hm : missingErrors (mergeValues req.Config env).1 (mergeValues req.Config env).2.1
          (mergeValues req.Config env).2.2 = []
      · cases hc : NewClient (mergeValues req.Config env).1 (mergeValues req.Config env).2.1
            (mergeValues req.Config env).2.2 with
        | error err =>
          exact Or.inr (Or.inr (Or.inr (Or.inl ⟨err, rfl, hk, hm, rfl,
            Configure_clientError NewClient env req resp hpre hk hm err hc⟩)))
        | ok client =>
          exact Or.inr (Or.inr (Or.inr (Or.inr ⟨client, rfl, hk, hm, rfl,
            Configure_ok NewClient env req resp hpre hk hm client hc⟩)))
      · exact Or.inr (Or.inr (Or.inl ⟨rfl, hk, hm,
          Configure_missing NewClient env req resp hpre hk hm⟩))
    · exact Or.inr (Or.inl ⟨rfl, hk, Configure_unknown NewClient env req resp hpre hk⟩)

/-- An unknown-value error is neither a missing-value error nor a
client-construction error. -/
theorem isUnknownValueError_exclusive (d : Diagnostic) (h : isUnknownValueError d) :
    ¬ isMissingValueError d ∧ ¬ isClientError d := by
  constructor
  · rintro (h1 | h1 | h1) <;> rcases h with h | h | h <;> subst h <;>
      exact absurd h1 (by decide)
  · rintro ⟨err, h1⟩
    rcases h with h | h | h <;> subst h <;>
      exact absurd (congrArg Diagnostic.Path h1) (fun h2 => Option.noConfusion h2)

/-- A missing-value error is not a client-construction error. -/
theorem isMissingValueError_not_client (d : Diagnostic) (h : isMissingValueError d) :
    ¬ isClientError d := by
  rintro ⟨err, h1⟩
  rcases h with h | h | h <;> subst h <;>
    exact absurd (congrArg Diagnostic.Path h1) (fun h2 => Option.noConfusion h2)

/-- Every expected unknown-value error is an unknown-value error. -/
theorem isUnknownValueError_of_mem (config : windowscaProviderModel) (d : Diagnostic)
    (h : d ∈ unknownErrors config) : isUnknownValueError d := by
  unfold unknownErrors at h
  unfold isUnknownValueError
  cases config.WinrmHostname.IsUnknown <;> cases config.WinrmUsername.IsUnknown <;>
    cases config.WinrmPassword.IsUnknown <;> simp at h <;> tauto

/-- Every expected missing-value error is a missing-value error. -/
theorem isMissingValueError_of_mem (host username password : String) (d : Diagnostic)
    (h : d ∈ missingErrors host username password) : isMissingValueError d := by
  unfold missingErrors at h
  unfold isMissingValueError
  by_cases h1 : host = "" <;> by_cases h2 : username = "" <;> by_cases h3 : password = "" <;>
    simp [h1, h2, h3] at h <;> tauto

/-! ## The unknown-value gate -/

/-- C2 (unknown short-circuit). When decoding left no error and at least one
attribute is unknown, then whatever the environment and the constructor are,
the diagnostics `Configure` returns are the decoding diagnostics followed by
exactly one unknown-value error per unknown attribute in the order hostname,
username, password; none of the errors added is a missing-value or a
client-construction error; the constructor is not invoked; and the whole run
is the same for every other environment and constructor. -/
theorem C2_unknown_short_circuit {Client : Type} (NewClient : ClientConstructor Client)
    (env : os.Env) (req : ConfigureRequest) (resp : ConfigureResponse Client)
    (hpre : Diagnostics.HasError (decoded req resp) = false)
    (hunk : req.Config.WinrmHostname.IsUnknown = true ∨
      req.Config.WinrmUsername.IsUnknown = true ∨ req.Config.WinrmPassword.IsUnknown = true) :
    (Configure NewClient env req resp).resp.Diagnostics =
        decoded req resp ++
          ((if req.Config.WinrmHostname.IsUnknown then [unknownHostname] else []) ++
           (if req.Config.WinrmUsername.IsUnknown then [unknownUsername] else []) ++
           (if req.Config.WinrmPassword.IsUnknown then [unknownPassword] else [])) ∧
      (∀ d ∈ appended req resp (Configure NewClient env req resp),
        isUnknownValueError d ∧ ¬ isMissingValueError d ∧ ¬ isClientError d) ∧
      (Configure NewClient env req resp).calls = [] ∧
      ∀ (NewClient2 : ClientConstructor Client) (env2 : os.Env),
        Configure NewClient2 env2 req resp = Configure NewClient env req resp := by
  have hnk : ¬ allKnown req.Config := by
    rintro ⟨h1, h2, h3⟩
    rcases hunk with h | h | h
    · rw [h1] at h; exact Bool.noConfusion h
    · rw [h2] at h; exact Bool.noConfusion h
    · rw [h3] at h; exact Bool.noConfusion h
  have hrun := Configure_unknown NewClient env req resp hpre hnk
  refine ⟨?_, ?_, ?_, ?_⟩
  · rw [hrun]; rfl
  · intro d hd
    have hmem : d ∈ unknownErrors req.Config := by
      simpa [appended, hrun] using hd
    have hu := isUnknownValueError_of_mem _ _ hmem
    exact ⟨hu, isUnknownValueError_exclusive d hu⟩
  · rw [hrun]
  · intro NewClient2 env2
    rw [hrun, Configure_unknown NewClient2 env2 req resp hpre hnk]

/-- C2 at hostname and password unknown, username known: the two unknown-value
errors, hostname first, and no constructor call. -/
theorem C2_unknown_short_circuit_witness :
    Diagnostics.HasError (decoded (requestOf .Unknown (.Known "u") .Unknown)
        (freshResponse (String × String × String))) = false ∧
      (Configure echoClient usernameEnv (requestOf .Unknown (.Known "u") .Unknown)
        (freshResponse _)).resp.Diagnostics = [unknownHostname, unknownPassword] ∧
      (Configure echoClient usernameEnv (requestOf .Unknown (.Known "u") .Unknown)
        (freshResponse _)).calls = [] :=
  ⟨rfl,
    (C2_unknown_short_circuit echoClient usernameEnv (requestOf .Unknown (.Known "u") .Unknown)
      (freshResponse _) rfl (Or.inl rfl)).1,
    (C2_unknown_short_circuit echoClient usernameEnv (requestOf .Unknown (.Known "u") .Unknown)
      (freshResponse _) rfl (Or.inl rfl)).2.2.1⟩

/-! ## The presence gate -/

theorem missingErrors_mem_host (host username password : String) :
    missingHostname ∈ missingErrors host username password ↔ host = "" := by
  have h1 := missingUsername_ne_missingHostname.symm
  have h2 := missingPassword_ne_missingHostname.symm
  unfold missingErrors
  by_cases a : host = "" <;> by_cases b : username = "" <;> by_cases c : password = "" <;>
    simp [a, b, c, h1, h2]

theorem missingErrors_mem_username (host username password : String) :
    missingUsername ∈ missingErrors host username password ↔ username = "" := by
  have h1 := missingUsername_ne_missingHostname
  have h2 := missingPassword_ne_missingUsername.symm
  unfold missingErrors
  by_cases a : host = "" <;> by_cases b : username = "" <;> by_cases c : password = "" <;>
    simp [a, b, c, h1, h2]

theorem missingErrors_mem_password (host username password : String) :
    missingPassword ∈ missingErrors host username password ↔ password = "" := by
  have h1 := missingPassword_ne_missingHostname
  have h2 := missingPassword_ne_missingUsername
  unfold missingErrors
  by_cases a : host = "" <;> by_cases b : username = "" <;> by_cases c : password = "" <;>
    simp [a, b, c, h1, h2]

theorem missingErrors_length (host username password : String) :
    (missingErrors host username password).length =
      (if host = "" then 1 else 0) + (if username = "" then 1 else 0) +
        (if password = "" then 1 else 0) := by
  unfold missingErrors
  by_cases a : host = "" <;> by_cases b : username = "" <;> by_cases c : password = "" <;>
    simp [a, b, c]

/-- C3 (missing accumulation). When decoding left no error, no attribute is
unknown and at least one of the merged values `host`, `username`, `password`
is empty, the diagnostics `Configure` returns are the decoding diagnostics
followed by one missing-value error per empty merged value, in the order
hostname, username, password: the error of a field is among them exactly when
the field's merged value is empty, and their number is the number of empty
values (two for two empty values). Neither slot is assigned and the
constructor is not invoked. With all three attributes null and the three
variables absent, the errors added are the three missing-value errors,
hostname first and password last. -/
theorem C3_missing_accumulation {Client : Type} (NewClient : ClientConstructor Client)
    (env : os.Env) (req : ConfigureRequest) (resp : ConfigureResponse Client)
    (host username password : String)
    (hpre : Diagnostics.HasError (decoded req resp) = false)
    (hk : allKnown req.Config)
    (hmv : mergeValues req.Config env = (host, username, password))
    (hempty : host = "" ∨ username = "" ∨ password = "") :
    (Configure NewClient env req resp).resp.Diagnostics =
        decoded req resp ++
          ((if host = "" then [missingHostname] else []) ++
           (if username = "" then [missingUsername] else []) ++
           (if password = "" then [missingPassword] else [])) ∧
      (missingHostname ∈ appended req resp (Configure NewClient env req resp) ↔ host = "") ∧
      (missingUsername ∈ appended req resp (Configure NewClient env req resp) ↔
        username = "") ∧
      (missingPassword ∈ appended req resp (Configure NewClient env req resp) ↔
        password = "") ∧
      (appended req resp (Configure NewClient env req resp)).length =
        (if host = "" then 1 else 0) + (if username = "" then 1 else 0) +
          (if password = "" then 1 else 0) ∧
      (Configure NewClient env req resp).resp.DataSourceData = resp.DataSourceData ∧
      (Configure NewClient env req resp).resp.ResourceData = resp.ResourceData ∧
      (Configure NewClient env req resp).calls = [] ∧
      (req.Config.WinrmHostname = .Null → req.Config.WinrmUsername = .Null →
        req.Config.WinrmPassword = .Null → env "WINDOWSCA_HOSTNAME" = none →
        env "WINDOWSCA_USERNAME" = none → env "WINDOWSCA_PASSWORD" = none →
        appended req resp (Configure NewClient env req resp) =
          [missingHostname, missingUsername, missingPassword]) := by
  have hm : missingErrors (mergeValues req.Config env).1 (mergeValues req.Config env).2.1
      (mergeValues req.Config env).2.2 ≠ [] := by
    rw [hmv]
    intro h
    have := (missingErrors_eq_nil_iff host username password).1 h
    tauto
  have hrun := Configure_missing NewClient env req resp hpre hk hm
  rw [hmv] at hrun
  have happ : appended req resp (Configure NewClient env req resp) =
      missingErrors host username password := by
    simp [appended, hrun]
  refine ⟨?_, ?_, ?_, ?_, ?_, ?_, ?_, ?_, ?_⟩
  · rw [hrun]; rfl
  · rw [happ]; exact missingErrors_mem_host _ _ _
  · rw [happ]; exact missingErrors_mem_username _ _ _
  · rw [happ]; exact missingErrors_mem_password _ _ _
  · rw [happ]; exact missingErrors_length _ _ _
  · rw [hrun]
  · rw [hrun]
  · rw [hrun]
  · intro n1 n2 n3 e1 e2 e3
    have h1 := (obeysPrecedence_host req.Config env).2.2 n1 e1
    have h2 := (obeysPrecedence_username req.Config env).2.2 n2 e2
    have h3 := (obeysPrecedence_password req.Config env).2.2 n3 e3
    rw [hmv] at h1 h2 h3
    simp only at h1 h2 h3
    rw [happ, h1, h2, h3]
    rfl

/-- C3 at all three attributes null and the empty environment: the three
missing-value errors, hostname first and password last, no slot assigned and
no constructor call. -/
theorem C3_missing_accumulation_witness :
    Diagnostics.HasError (decoded (requestOf .Null .Null .Null)
        (freshResponse (String × String × String))) = false ∧
      allKnown (requestOf .Null .Null .Null).Config ∧
      mergeValues (requestOf .Null .Null .Null).Config emptyEnv = ("", "", "") ∧
      (Configure echoClient emptyEnv (requestOf .Null .Null .Null)
        (freshResponse _)).resp.Diagnostics =
          [missingHostname, missingUsername, missingPassword] ∧
      (Configure echoClient emptyEnv (requestOf .Null .Null .Null)
        (freshResponse _)).resp.DataSourceData = none ∧
      (Configure echoClient emptyEnv (requestOf .Null .Null .Null)
        (freshResponse _)).calls = [] :=
  ⟨rfl, by decide, rfl,
    (C3_missing_accumulation echoClient emptyEnv (requestOf .Null .Null .Null)
      (freshResponse _) "" "" "" rfl (by decide) rfl (Or.inl rfl)).1,
    (C3_missing_accumulation echoClient emptyEnv (requestOf .Null .Null .Null)
      (freshResponse _) "" "" "" rfl (by decide) rfl (Or.inl rfl)).2.2.2.2.2.1,
    (C3_missing_accumulation echoClient emptyEnv (requestOf .Null .Null .Null)
      (freshResponse _) "" "" "" rfl (by decide) rfl (Or.inl rfl)).2.2.2.2.2.2.2.1⟩

/-! ## Client construction -/

/-- C4 (success path). When decoding left no error, no attribute is unknown
and the merged values `host`, `username`, `password` are all non-empty,
`Configure` invokes the constructor exactly once, with exactly the triple
`(host, username, password)` in that order; and if that call succeeds with a
client, the response holds that client in both slots and no diagnostic beyond
the decoding diagnostics. -/
theorem C4_success_path {Client : Type} (NewClient : ClientConstructor Client)
    (env : os.Env) (req : ConfigureRequest) (resp : ConfigureResponse Client)
    (host username password : String)
    (hpre : Diagnostics.HasError (decoded req resp) = false)
    (hk : allKnown req.Config)
    (hmv : mergeValues req.Config env = (host, username, password))
    (hfull : host ≠ "" ∧ username ≠ "" ∧ password ≠ "") :
    (Configure NewClient env req resp).calls = [(host, username, password)] ∧
      ∀ client : Client, NewClient host username password = .ok client →
        (Configure NewClient env req resp).resp =
          { Diagnostics := decoded req resp, DataSourceData := some client,
            ResourceData := some client } := by
  have hm : missingErrors (mergeValues req.Config env).1 (mergeValues req.Config env).2.1
      (mergeValues req.Config env).2.2 = [] := by
    rw [hmv]; exact (missingErrors_eq_nil_iff host username password).2 hfull
  constructor
  · cases hc : NewClient (mergeValues req.Config env).1 (mergeValues req.Config env).2.1
        (mergeValues req.Config env).2.2 with
    | error err => rw [Configure_clientError NewClient env req resp hpre hk hm err hc, hmv]
    | ok client => rw [Configure_ok NewClient env req resp hpre hk hm client hc, hmv]
  · intro client hc
    have hc2 : NewClient (mergeValues req.Config env).1 (mergeValues req.Config env).2.1
        (mergeValues req.Config env).2.2 = .ok client := by rw [hmv]; exact hc
    rw [Configure_ok NewClient env req resp hpre hk hm client hc2]

/-- C4 at hostname `h` and password `p` set, username null, and the environment
holding only `WINDOWSCA_USERNAME = u`: the constructor is invoked once with
`(h, u, p)`, and as it succeeds its client fills both slots of a response
without diagnostics. -/
theorem C4_success_path_witness :
    Diagnostics.HasError (decoded (requestOf (.Known "h") .Null (.Known "p"))
        (freshResponse (String × String × String))) = false ∧
      allKnown (requestOf (.Known "h") .Null (.Known "p")).Config ∧
      mergeValues (requestOf (.Known "h") .Null (.Known "p")).Config usernameEnv
        = ("h", "u", "p") ∧
      ("h" ≠ "" ∧ "u" ≠ "" ∧ "p" ≠ "") ∧
      (Configure echoClient usernameEnv (requestOf (.Known "h") .Null (.Known "p"))
        (freshResponse _)).calls = [("h", "u", "p")] ∧
      (Configure echoClient usernameEnv (requestOf (.Known "h") .Null (.Known "p"))
        (freshResponse _)).resp =
          { Diagnostics := [], DataSourceData := some ("h", "u", "p"),
            ResourceData := some ("h", "u", "p") } :=
  ⟨rfl, by decide, by decide, by decide,
    (C4_success_path echoClient usernameEnv (requestOf (.Known "h") .Null (.Known "p"))
      (freshResponse _) "h" "u" "p" rfl (by decide) (by decide) (by decide)).1,
    (C4_success_path echoClient usernameEnv (requestOf (.Known "h") .Null (.Known "p"))
      (freshResponse _) "h" "u" "p" rfl (by decide) (by decide) (by decide)).2 ("h", "u", "p") rfl⟩

/-- C5 (non-empty credentials). In every run of `Configure`, every triple the
constructor is invoked with has three non-empty components; the constructor is
not invoked when some attribute is unknown, and it is not invoked when some
merged value is empty. -/
theorem C5_credentials_nonempty {Client : Type} (NewClient : ClientConstructor Client)
    (env : os.Env) (req : ConfigureRequest) (resp : ConfigureResponse Client) :
    (∀ c ∈ (Configure NewClient env req resp).calls, c.1 ≠ "" ∧ c.2.1 ≠ "" ∧ c.2.2 ≠ "") ∧
      (¬ allKnown req.Config → (Configure NewClient env req resp).calls = []) ∧
      (∀ host username password : String,
        (Configure NewClient env req resp).merged = some (host, username, password) →
        (host = "" ∨ username = "" ∨ password = "") →
        (Configure NewClient env req resp).calls = []) ∧
      (((mergeValues req.Config env).1 = "" ∨ (mergeValues req.Config env).2.1 = "" ∨
          (mergeValues req.Config env).2.2 = "") →
        (Configure NewClient env req resp).calls = []) := by
  rcases Configure_cases NewClient env req resp with
    ⟨_, hrun⟩ | ⟨_, _, hrun⟩ | ⟨_, _, _, hrun⟩ | ⟨err, _, hk, hm, _, hrun⟩ |
    ⟨client, _, hk, hm, _, hrun⟩
  · rw [hrun]; simp
  · rw [hrun]; simp
  · rw [hrun]; simp
  · have hne := (missingErrors_eq_nil_iff _ _ _).1 hm
    rw [hrun]
    refine ⟨?_, fun h => absurd hk h, ?_, ?_⟩
    · intro c hc
      rw [List.mem_singleton] at hc
      rw [hc]; exact hne
    · intro host username password hmv hempty
      have hmv2 : mergeValues req.Config env = (host, username, password) :=
        Option.some.inj hmv
      rw [hmv2] at hne
      exact absurd hempty (by simp only at hne; tauto)
    · intro hempty
      exact absurd hempty (by tauto)
  · have hne := (missingErrors_eq_nil_iff _ _ _).1 hm
    rw [hrun]
    refine ⟨?_, fun h => absurd hk h, ?_, ?_⟩
    · intro c hc
      rw [List.mem_singleton] at hc
      rw [hc]; exact hne
    · intro host username password hmv hempty
      have hmv2 : mergeValues req.Config env = (host, username, password) :=
        Option.some.inj hmv
      rw [hmv2] at hne
      exact absurd hempty (by simp only at hne; tauto)
    · intro hempty
      exact absurd hempty (by tauto)

/-- C5 on the success path: the constructor is invoked, with the non-empty
triple `(h, u, p)`. -/
theorem C5_credentials_nonempty_witness :
    (Configure echoClient usernameEnv (requestOf (.Known "h") .Null (.Known "p"))
        (freshResponse _)).calls = [("h", "u", "p")] ∧
      ∀ c ∈ (Configure echoClient usernameEnv (requestOf (.Known "h") .Null (.Known "p"))
        (freshResponse _)).calls, c.1 ≠ "" ∧ c.2.1 ≠ "" ∧ c.2.2 ≠ "" :=
  ⟨by decide,
    (C5_credentials_nonempty echoClient usernameEnv (requestOf (.Known "h") .Null (.Known "p"))
      (freshResponse _)).1⟩

/-- C6 (construction failure wrapping). When a run of `Configure` invokes the
constructor with `(host, username, password)` and that call fails with the
error text `m`, the diagnostics returned are the decoding diagnostics followed
by exactly one diagnostic: of severity error, without a field path, with the
title `Unable to Create Windows WinRM Client`, and with a detail text that
contains `m`. Neither slot is assigned. -/
theorem C6_construction_failure {Client : Type} (NewClient : ClientConstructor Client)
    (env : os.Env) (req : ConfigureRequest) (resp : ConfigureResponse Client)
    (host username password m : String)
    (hcall : (host, username, password) ∈ (Configure NewClient env req resp).calls)
    (herr : NewClient host username password = .error m) :
    ∃ d : Diagnostic,
      (Configure NewClient env req resp).resp.Diagnostics = decoded req resp ++ [d] ∧
      d.Severity = diag.Severity.Error ∧
      d.Path = none ∧
      d.Summary = "Unable to Create Windows WinRM Client" ∧
      (∃ before after : String, d.Detail = before ++ m ++ after) ∧
      (Configure NewClient env req resp).resp.DataSourceData = resp.DataSourceData ∧
      (Configure NewClient env req resp).resp.ResourceData = resp.ResourceData := by
  rcases Configure_cases NewClient env req resp with
    ⟨_, hrun⟩ | ⟨_, _, hrun⟩ | ⟨_, _, _, hrun⟩ | ⟨err, _, _, _, hc, hrun⟩ |
    ⟨client, _, _, _, hc, hrun⟩
  · rw [hrun] at hcall; simp at hcall
  · rw [hrun] at hcall; simp at hcall
  · rw [hrun] at hcall; simp at hcall
  · rw [hrun] at hcall
    rw [List.mem_singleton] at hcall
    rw [← hcall] at hc
    simp only at hc
    rw [herr] at hc
    have hm : m = err := Except.error.inj hc
    subst hm
    refine ⟨clientError m, by rw [hrun], rfl, rfl, rfl, ?_, by rw [hrun], by rw [hrun]⟩
    exact ⟨"An unexpected error occurred when creating the Windows WinRM client. " ++
      "If the error is not clear, please contact the provider developers.\n\n" ++
      "Windows WinRM Client Error: ", "", by simp [clientError, diag.NewErrorDiagnostic]⟩
  · rw [hrun] at hcall
    rw [List.mem_singleton] at hcall
    rw [← hcall] at hc
    simp only at hc
    rw [herr] at hc
    exact Except.noConfusion hc

/-- C6 at a constructor failing with `boom`: the one diagnostic returned is the
client-construction error whose detail ends in `boom`, and no slot is set. -/
theorem C6_construction_failure_witness :
    ("h", "u", "p") ∈ (Configure boomClient usernameEnv
        (requestOf (.Known "h") .Null (.Known "p")) (freshResponse _)).calls ∧
      boomClient "h" "u" "p" = .error "boom" ∧
      ∃ d : Diagnostic,
        (Configure boomClient usernameEnv (requestOf (.Known "h") .Null (.Known "p"))
          (freshResponse _)).resp.Diagnostics = [d] ∧
        d.Severity = diag.Severity.Error ∧
        d.Path = none ∧
        d.Summary = "Unable to Create Windows WinRM Client" ∧
        (∃ before after : String, d.Detail = before ++ "boom" ++ after) ∧
        (Configure boomClient usernameEnv (requestOf (.Known "h") .Null (.Known "p"))
          (freshResponse _)).resp.DataSourceData = none ∧
        (Configure boomClient usernameEnv (requestOf (.Known "h") .Null (.Known "p"))
          (freshResponse _)).resp.ResourceData = none :=
  ⟨by decide, rfl,
    C6_construction_failure boomClient usernameEnv (requestOf (.Known "h") .Null (.Known "p"))
      (freshResponse _) "h" "u" "p" "boom" (by decide) rfl⟩

/-! ## Field paths of the diagnostics -/

/-- C7 (diagnostics name their field), evaluated on the code. The
unknown-value errors carry the schema attributes `winrm_hostname`,
`winrm_username` and `winrm_password` as field paths. The missing-value errors
do not: with all three attributes null and an empty environment, the three
diagnostics `Configure` returns carry the paths `host`, `username` and
`password`, and none of these is an attribute declared by the schema. -/
theorem C7_missing_value_paths_outside_schema :
    unknownHostname.Path = some (path.Root "winrm_hostname") ∧
      unknownUsername.Path = some (path.Root "winrm_username") ∧
      unknownPassword.Path = some (path.Root "winrm_password") ∧
      (Configure echoClient emptyEnv (requestOf .Null .Null .Null)
          (freshResponse _)).resp.Diagnostics.map Diagnostic.Path =
        [some (path.Root "host"), some (path.Root "username"), some (path.Root "password")] ∧
      ∀ d ∈ (Configure echoClient emptyEnv (requestOf .Null .Null .Null)
          (freshResponse _)).resp.Diagnostics,
        ∀ a ∈ Schema, d.Path ≠ some (path.Root a.1) := by
  have hrun : (Configure echoClient emptyEnv (requestOf .Null .Null .Null)
      (freshResponse _)).resp.Diagnostics =
        [missingHostname, missingUsername, missingPassword] := by
    rw [Configure_missing echoClient emptyEnv (requestOf .Null .Null .Null) (freshResponse _)
      rfl (by decide) (by decide)]
    rfl
  refine ⟨rfl, rfl, rfl, ?_, ?_⟩
  · rw [hrun]; rfl
  · rw [hrun]
    decide

/-! ## The password value and the diagnostics -/

/-- C8 as stated fails. Two runs with the same unknown hostname, the same
username, the same (empty) environment and the same decoding outcome, whose
password attributes are unknown in one and the known empty string in the
other: neither run merges, the would-be merged password is empty in both, the
constructor is invoked in neither, and yet the first run returns two
diagnostics and the second one. -/
theorem C8_counterexample :
    (requestOf .Unknown (.Known "u") .Unknown).Config.WinrmHostname =
        (requestOf .Unknown (.Known "u") (.Known "")).Config.WinrmHostname ∧
      (requestOf .Unknown (.Known "u") .Unknown).Config.WinrmUsername =
        (requestOf .Unknown (.Known "u") (.Known "")).Config.WinrmUsername ∧
      ((mergeValues (requestOf .Unknown (.Known "u") .Unknown).Config emptyEnv).2.2 = "" ↔
        (mergeValues (requestOf .Unknown (.Known "u") (.Known "")).Config emptyEnv).2.2 = "") ∧
      (Configure echoClient emptyEnv (requestOf .Unknown (.Known "u") .Unknown)
          (freshResponse _)).merged =
        (Configure echoClient emptyEnv (requestOf .Unknown (.Known "u") (.Known ""))
          (freshResponse _)).merged ∧
      (Configure echoClient emptyEnv (requestOf .Unknown (.Known "u") .Unknown)
          (freshResponse _)).calls = [] ∧
      (Configure echoClient emptyEnv (requestOf .Unknown (.Known "u") (.Known ""))
          (freshResponse _)).calls = [] ∧
      (Configure echoClient emptyEnv (requestOf .Unknown (.Known "u") .Unknown)
          (freshResponse _)).resp.Diagnostics = [unknownHostname, unknownPassword] ∧
      (Configure echoClient emptyEnv (requestOf .Unknown (.Known "u") (.Known ""))
          (freshResponse _)).resp.Diagnostics = [unknownHostname] ∧
      (Configure echoClient emptyEnv (requestOf .Unknown (.Known "u") .Unknown)
          (freshResponse _)).resp.Diagnostics ≠
        (Configure echoClient emptyEnv (requestOf .Unknown (.Known "u") (.Known ""))
          (freshResponse _)).resp.Diagnostics := by
  have h1 := Configure_unknown echoClient emptyEnv (requestOf .Unknown (.Known "u") .Unknown)
    (freshResponse _) rfl (by decide)
  have h2 := Configure_unknown echoClient emptyEnv
    (requestOf .Unknown (.Known "u") (.Known "")) (freshResponse _) rfl (by decide)
  refine ⟨rfl, rfl, by decide, ?_, ?_, ?_, ?_, ?_, ?_⟩
  · rw [h1, h2]
  · rw [h1]
  · rw [h2]
  · rw [h1]; rfl
  · rw [h2]; rfl
  · rw [h1, h2]
    intro h
    exact absurd (congrArg List.length h) (by decide)

theorem unknownErrors_congr (c1 c2 : windowscaProviderModel)
    (hh : c1.WinrmHostname = c2.WinrmHostname) (hu : c1.WinrmUsername = c2.WinrmUsername)
    (hp : c1.WinrmPassword.IsUnknown = c2.WinrmPassword.IsUnknown) :
    unknownErrors c1 = unknownErrors c2 := by
  unfold unknownErrors
  rw [hh, hu, hp]

theorem allKnown_congr (c1 c2 : windowscaProviderModel)
    (hh : c1.WinrmHostname = c2.WinrmHostname) (hu : c1.WinrmUsername = c2.WinrmUsername)
    (hp : c1.WinrmPassword.IsUnknown = c2.WinrmPassword.IsUnknown) :
    allKnown c1 ↔ allKnown c2 := by
  unfold allKnown
  rw [hh, hu, hp]

theorem missingErrors_congr (host username p1 p2 : String) (hp : p1 = "" ↔ p2 = "") :
    missingErrors host username p1 = missingErrors host username p2 := by
  unfold missingErrors
  by_cases h1 : p1 = ""
  · have h2 : p2 = "" := hp.1 h1
    rw [h1, h2]
  · have h2 : ¬ p2 = "" := fun h => h1 (hp.2 h)
    simp [h1, h2]

theorem mergeValues_host_congr (c1 c2 : windowscaProviderModel) (env1 env2 : os.Env)
    (hh : c1.WinrmHostname = c2.WinrmHostname)
    (he : env1 "WINDOWSCA_HOSTNAME" = env2 "WINDOWSCA_HOSTNAME") :
    (mergeValues c1 env1).1 = (mergeValues c2 env2).1 := by
  simp [mergeValues, os.Getenv, hh, he]

theorem mergeValues_username_congr (c1 c2 : windowscaProviderModel) (env1 env2 : os.Env)
    (hu : c1.WinrmUsername = c2.WinrmUsername)
    (he : env1 "WINDOWSCA_USERNAME" = env2 "WINDOWSCA_USERNAME") :
    (mergeValues c1 env1).2.1 = (mergeValues c2 env2).2.1 := by
  simp [mergeValues, os.Getenv, hu, he]

/-- C8 amended (the password value is not echoed). Take two runs of `Configure`
on the same response and the same decoding diagnostics that agree on the
hostname and username attributes, on the environment's hostname and username
variables, on whether the password attribute is unknown, and on whether the
merged password is empty, and whose constructor calls, when both runs make
one, have the same outcome (both succeed, or both fail with the same text).
Then the two runs return the same diagnostics, whatever the two password
values are. -/
theorem C8_password_not_echoed {Client : Type}
    (NewClient1 NewClient2 : ClientConstructor Client) (env1 env2 : os.Env)
    (config1 config2 : windowscaProviderModel) (diags : Diagnostics)
    (resp : ConfigureResponse Client)
    (hh : config1.WinrmHostname = config2.WinrmHostname)
    (hu : config1.WinrmUsername = config2.WinrmUsername)
    (heh : env1 "WINDOWSCA_HOSTNAME" = env2 "WINDOWSCA_HOSTNAME")
    (heu : env1 "WINDOWSCA_USERNAME" = env2 "WINDOWSCA_USERNAME")
    (hpu : config1.WinrmPassword.IsUnknown = config2.WinrmPassword.IsUnknown)
    (hpe : (mergeValues config1 env1).2.2 = "" ↔ (mergeValues config2 env2).2.2 = "")
    (hctor : ∀ a ∈ (Configure NewClient1 env1 { Config := config1, diags := diags } resp).calls,
      ∀ b ∈ (Configure NewClient2 env2 { Config := config2, diags := diags } resp).calls,
        errorText (NewClient1 a.1 a.2.1 a.2.2) = errorText (NewClient2 b.1 b.2.1 b.2.2)) :
    (Configure NewClient1 env1 { Config := config1, diags := diags } resp).resp.Diagnostics =
      (Configure NewClient2 env2 { Config := config2, diags := diags } resp).resp.Diagnostics := by
  have hunk := unknownErrors_congr config1 config2 hh hu hpu
  have hall := allKnown_congr config1 config2 hh hu hpu
  have hmiss : missingErrors (mergeValues config1 env1).1 (mergeValues config1 env1).2.1
      (mergeValues config1 env1).2.2 = missingErrors (mergeValues config2 env2).1
        (mergeValues config2 env2).2.1 (mergeValues config2 env2).2.2 := by
    rw [mergeValues_host_congr config1 config2 env1 env2 hh heh,
      mergeValues_username_congr config1 config2 env1 env2 hu heu]
    exact missingErrors_congr _ _ _ _ hpe
  have hdec : decoded { Config := config1, diags := diags } resp =
      decoded { Config := config2, diags := diags } resp := rfl
  rcases Configure_cases NewClient1 env1 { Config := config1, diags := diags } resp with
    ⟨hp1, hrun1⟩ | ⟨hp1, hk1, hrun1⟩ | ⟨hp1, hk1, hm1, hrun1⟩ | ⟨err1, hp1, hk1, hm1, hc1, hrun1⟩ |
    ⟨client1, hp1, hk1, hm1, hc1, hrun1⟩
  · rw [hrun1, Configure_decodeError NewClient2 env2 _ resp (hdec ▸ hp1)]
    rfl
  · rw [hrun1, Configure_unknown NewClient2 env2 _ resp (hdec ▸ hp1) (fun h => hk1 (hall.2 h))]
    simp only
    rw [hunk]
    rfl
  · rw [hrun1, Configure_missing NewClient2 env2 _ resp (hdec ▸ hp1) (hall.1 hk1)
      (hmiss ▸ hm1)]
    simp only
    rw [hmiss]
    rfl
  · have hp2 : Diagnostics.HasError (decoded { Config := config2, diags := diags } resp)
        = false := hdec ▸ hp1
    have hk2 := hall.1 hk1
    have hm2 := hmiss ▸ hm1
    rw [hrun1] at hctor
    cases hc2 : NewClient2 (mergeValues config2 env2).1 (mergeValues config2 env2).2.1
        (mergeValues config2 env2).2.2 with
    | error err2 =>
      have hrun2 := Configure_clientError NewClient2 env2 _ resp hp2 hk2 hm2 err2 hc2
      rw [hrun2] at hctor
      have := hctor _ (List.mem_singleton.2 rfl) _ (List.mem_singleton.2 rfl)
      rw [hc1, hc2] at this
      have he : err1 = err2 := Option.some.inj this
      rw [hrun1, hrun2, he]
      rfl
    | ok client2 =>
      have hrun2 := Configure_ok NewClient2 env2 _ resp hp2 hk2 hm2 client2 hc2
      rw [hrun2] at hctor
      have := hctor _ (List.mem_singleton.2 rfl) _ (List.mem_singleton.2 rfl)
      rw [hc1, hc2] at this
      exact Option.noConfusion this
  · have hp2 : Diagnostics.HasError (decoded { Config := config2, diags := diags } resp)
        = false := hdec ▸ hp1
    have hk2 := hall.1 hk1
    have hm2 := hmiss ▸ hm1
    rw [hrun1] at hctor
    cases hc2 : NewClient2 (mergeValues config2 env2).1 (mergeValues config2 env2).2.1
        (mergeValues config2 env2).2.2 with
    | error err2 =>
      have hrun2 := Configure_clientError NewClient2 env2 _ resp hp2 hk2 hm2 err2 hc2
      rw [hrun2] at hctor
      have := hctor _ (List.mem_singleton.2 rfl) _ (List.mem_singleton.2 rfl)
      rw [hc1, hc2] at this
      exact Option.noConfusion this
    | ok client2 =>
      rw [hrun1, Configure_ok NewClient2 env2 _ resp hp2 hk2 hm2 client2 hc2]
      rfl

/-- C8 amended, at two runs that differ only in the password (`secret1` and
`secret2`) and whose constructor fails with `boom` in both: the diagnostics
returned are the same. -/
theorem C8_password_not_echoed_witness :
    (requestOf (.Known "h") (.Known "u") (.Known "secret1")).Config.WinrmHostname =
        (requestOf (.Known "h") (.Known "u") (.Known "secret2")).Config.WinrmHostname ∧
      (requestOf (.Known "h") (.Known "u") (.Known "secret1")).Config.WinrmUsername =
        (requestOf (.Known "h") (.Known "u") (.Known "secret2")).Config.WinrmUsername ∧
      emptyEnv "WINDOWSCA_HOSTNAME" = emptyEnv "WINDOWSCA_HOSTNAME" ∧
      emptyEnv "WINDOWSCA_USERNAME" = emptyEnv "WINDOWSCA_USERNAME" ∧
      (requestOf (.Known "h") (.Known "u") (.Known "secret1")).Config.WinrmPassword.IsUnknown =
        (requestOf (.Known "h") (.Known "u")
          (.Known "secret2")).Config.WinrmPassword.IsUnknown ∧
      ((mergeValues (requestOf (.Known "h") (.Known "u") (.Known "secret1")).Config
            emptyEnv).2.2 = "" ↔
        (mergeValues (requestOf (.Known "h") (.Known "u") (.Known "secret2")).Config
            emptyEnv).2.2 = "") ∧
      (Configure boomClient emptyEnv (requestOf (.Known "h") (.Known "u") (.Known "secret1"))
          (freshResponse _)).calls = [("h", "u", "secret1")] ∧
      (Configure boomClient emptyEnv (requestOf (.Known "h") (.Known "u") (.Known "secret2"))
          (freshResponse _)).calls = [("h", "u", "secret2")] ∧
      (Configure boomClient emptyEnv (requestOf (.Known "h") (.Known "u") (.Known "secret1"))
          (freshResponse _)).resp.Diagnostics =
        (Configure boomClient emptyEnv (requestOf (.Known "h") (.Known "u") (.Known "secret2"))
          (freshResponse _)).resp.Diagnostics :=
  ⟨rfl, rfl, rfl, rfl, rfl, by decide, by decide, by decide,
    C8_password_not_echoed boomClient boomClient emptyEnv emptyEnv
      (requestOf (.Known "h") (.Known "u") (.Known "secret1")).Config
      (requestOf (.Known "h") (.Known "u") (.Known "secret2")).Config
      [] (freshResponse _) rfl rfl rfl rfl rfl (by decide) (fun _ _ _ _ => rfl)⟩

/-! ## Sequential gates -/

/-- No diagnostic is both an unknown-value and a missing-value error. -/
theorem not_unknown_and_missing (d : Diagnostic) :
    ¬ (isUnknownValueError d ∧ isMissingValueError d) :=
  fun h => (isUnknownValueError_exclusive d h.1).1 h.2

theorem unknownErrors_length_le (config : windowscaProviderModel) :
    (unknownErrors config).length ≤ 3 := by
  unfold unknownErrors
  cases config.WinrmHostname.IsUnknown <;> cases config.WinrmUsername.IsUnknown <;>
    cases config.WinrmPassword.IsUnknown <;> simp

theorem missingErrors_length_le (host username password : String) :
    (missingErrors host username password).length ≤ 3 := by
  rw [missingErrors_length]
  by_cases a : host = "" <;> by_cases b : username = "" <;> by_cases c : password = "" <;>
    simp [a, b, c]

/-- C9 (gates are sequential and never mixed). In every run of `Configure`, the
diagnostics returned are the decoding diagnostics followed by the diagnostics
the gates added, and these are either none, or all unknown-value errors, or
all missing-value errors, or a single client-construction error; they never
hold both an unknown-value and a missing-value error, and they are at most
three. -/
theorem C9_gates_sequential {Client : Type} (NewClient : ClientConstructor Client)
    (env : os.Env) (req : ConfigureRequest) (resp : ConfigureResponse Client) :
    (Configure NewClient env req resp).resp.Diagnostics =
        decoded req resp ++ appended req resp (Configure NewClient env req resp) ∧
      (appended req resp (Configure NewClient env req resp) = [] ∨
        (∀ d ∈ appended req resp (Configure NewClient env req resp), isUnknownValueError d) ∨
        (∀ d ∈ appended req resp (Configure NewClient env req resp), isMissingValueError d) ∨
        (∃ err : String,
          appended req resp (Configure NewClient env req resp) = [clientError err])) ∧
      ¬ ((∃ d ∈ appended req resp (Configure NewClient env req resp), isUnknownValueError d) ∧
          (∃ d ∈ appended req resp (Configure NewClient env req resp),
            isMissingValueError d)) ∧
      (appended req resp (Configure NewClient env req resp)).length ≤ 3 := by
  rcases Configure_cases NewClient env req resp with
    ⟨_, hrun⟩ | ⟨_, _, hrun⟩ | ⟨_, _, _, hrun⟩ | ⟨err, _, _, _, _, hrun⟩ |
    ⟨client, _, _, _, _, hrun⟩
  · have happ : appended req resp (Configure NewClient env req resp) = [] := by
      simp [appended, hrun]
    rw [happ]
    refine ⟨by rw [hrun]; simp, Or.inl rfl, ?_, by simp⟩
    rintro ⟨⟨d, hd, _⟩, _⟩
    simp at hd
  · have happ : appended req resp (Configure NewClient env req resp)
        = unknownErrors req.Config := by
      simp [appended, hrun]
    rw [happ]
    refine ⟨by rw [hrun], Or.inr (Or.inl (isUnknownValueError_of_mem _)), ?_,
      unknownErrors_length_le _⟩
    rintro ⟨_, ⟨d, hd, hmd⟩⟩
    exact not_unknown_and_missing d ⟨isUnknownValueError_of_mem _ d hd, hmd⟩
  · have happ : appended req resp (Configure NewClient env req resp)
        = missingErrors (mergeValues req.Config env).1 (mergeValues req.Config env).2.1
            (mergeValues req.Config env).2.2 := by
      simp [appended, hrun]
    rw [happ]
    refine ⟨by rw [hrun], Or.inr (Or.inr (Or.inl (isMissingValueError_of_mem _ _ _))), ?_,
      missingErrors_length_le _ _ _⟩
    rintro ⟨⟨d, hd, hud⟩, _⟩
    exact not_unknown_and_missing d ⟨hud, isMissingValueError_of_mem _ _ _ d hd⟩
  · have happ : appended req resp (Configure NewClient env req resp) = [clientError err] := by
      simp [appended, hrun]
    rw [happ]
    refine ⟨by rw [hrun], Or.inr (Or.inr (Or.inr ⟨err, rfl⟩)), ?_, by simp⟩
    rintro ⟨⟨d, hd, hud⟩, _⟩
    rw [List.mem_singleton] at hd
    exact (isUnknownValueError_exclusive d hud).2 ⟨err, hd⟩
  · have happ : appended req resp (Configure NewClient env req resp) = [] := by
      simp [appended, hrun]
    rw [happ]
    refine ⟨by rw [hrun]; simp, Or.inl rfl, ?_, by simp⟩
    rintro ⟨⟨d, hd, _⟩, _⟩
    simp at hd

/-! ## Handle or diagnostics -/

theorem severity_of_isUnknownValueError (d : Diagnostic) (h : isUnknownValueError d) :
    d.Severity = diag.Severity.Error := by
  rcases h with h | h | h <;> subst h <;> rfl

theorem severity_of_isMissingValueError (d : Diagnostic) (h : isMissingValueError d) :
    d.Severity = diag.Severity.Error := by
  rcases h with h | h | h <;> subst h <;> rfl

/-- C10 (handle or diagnostics, never both). Take a response with both slots
unset and a decoding that left no error, and let `host`, `username`,
`password` be the merged values. Then a run of `Configure` either invokes the
constructor, receives a client from it, stores that same client in the
data-source slot and in the resource slot and adds no diagnostic; or it adds
at least one diagnostic, every diagnostic it adds is an error, and both slots
stay unset. Both slots hold a client exactly when no attribute is unknown, the
three merged values are non-empty and the constructor succeeds. -/
theorem C10_handle_or_diagnostics {Client : Type} (NewClient : ClientConstructor Client)
    (env : os.Env) (req : ConfigureRequest) (resp : ConfigureResponse Client)
    (host username password : String)
    (hpre : Diagnostics.HasError (decoded req resp) = false)
    (hds : resp.DataSourceData = none) (hrs : resp.ResourceData = none)
    (hmv : mergeValues req.Config env = (host, username, password)) :
    ((∃ client : Client,
          (Configure NewClient env req resp).calls = [(host, username, password)] ∧
          NewClient host username password = .ok client ∧
          (Configure NewClient env req resp).resp.DataSourceData = some client ∧
          (Configure NewClient env req resp).resp.ResourceData = some client ∧
          appended req resp (Configure NewClient env req resp) = []) ∨
        (appended req resp (Configure NewClient env req resp) ≠ [] ∧
          (∀ d ∈ appended req resp (Configure NewClient env req resp),
            d.Severity = diag.Severity.Error) ∧
          (Configure NewClient env req resp).resp.DataSourceData = none ∧
          (Configure NewClient env req resp).resp.ResourceData = none)) ∧
      ((∃ client : Client,
          (Configure NewClient env req resp).resp.DataSourceData = some client ∧
          (Configure NewClient env req resp).resp.ResourceData = some client) ↔
        (allKnown req.Config ∧ (host ≠ "" ∧ username ≠ "" ∧ password ≠ "") ∧
          ∃ client : Client, NewClient host username password = .ok client)) := by
  rcases Configure_cases NewClient env req resp with
    ⟨hp, _⟩ | ⟨_, hk, hrun⟩ | ⟨_, hk, hm, hrun⟩ | ⟨err, _, hk, hm, hc, hrun⟩ |
    ⟨client, _, hk, hm, hc, hrun⟩
  · rw [hpre] at hp; exact Bool.noConfusion hp
  · have happ : appended req resp (Configure NewClient env req resp)
        = unknownErrors req.Config := by
      simp [appended, hrun]
    have hne : unknownErrors req.Config ≠ [] := fun h => hk ((unknownErrors_eq_nil_iff _).1 h)
    rw [happ, hrun]
    refine ⟨Or.inr ⟨hne, fun d hd => severity_of_isUnknownValueError d
      (isUnknownValueError_of_mem _ d hd), hds, hrs⟩, ?_⟩
    constructor
    · rintro ⟨client, h1, _⟩
      rw [hds] at h1
      exact Option.noConfusion h1
    · rintro ⟨h1, _⟩
      exact absurd h1 hk
  · have happ : appended req resp (Configure NewClient env req resp)
        = missingErrors (mergeValues req.Config env).1 (mergeValues req.Config env).2.1
            (mergeValues req.Config env).2.2 := by
      simp [appended, hrun]
    rw [happ, hrun]
    refine ⟨Or.inr ⟨hm, fun d hd => severity_of_isMissingValueError d
      (isMissingValueError_of_mem _ _ _ d hd), hds, hrs⟩, ?_⟩
    constructor
    · rintro ⟨client, h1, _⟩
      rw [hds] at h1
      exact Option.noConfusion h1
    · rintro ⟨_, h2, _⟩
      rw [hmv] at hm
      exact absurd ((missingErrors_eq_nil_iff host username password).2 h2) hm
  · have happ : appended req resp (Configure NewClient env req resp) = [clientError err] := by
      simp [appended, hrun]
    rw [happ, hrun]
    refine ⟨Or.inr ⟨by simp, ?_, hds, hrs⟩, ?_⟩
    · intro d hd
      rw [List.mem_singleton] at hd
      rw [hd]; rfl
    · constructor
      · rintro ⟨client, h1, _⟩
        rw [hds] at h1
        exact Option.noConfusion h1
      · rintro ⟨_, _, client, h3⟩
        rw [hmv] at hc
        rw [hc] at h3
        exact Except.noConfusion h3
  · have happ : appended req resp (Configure NewClient env req resp) = [] := by
      simp [appended, hrun]
    rw [hmv] at hc hm
    rw [happ, hrun, hmv]
    exact ⟨Or.inl ⟨client, rfl, hc, rfl, rfl, rfl⟩,
      fun _ => ⟨hk, (missingErrors_eq_nil_iff host username password).1 hm, client, hc⟩,
      fun _ => ⟨client, rfl, rfl⟩⟩

/-- C10 on the success path of the spec's example: the client the constructor
returns fills both slots and nothing is added. -/
theorem C10_handle_or_diagnostics_witness :
    Diagnostics.HasError (decoded (requestOf (.Known "h") .Null (.Known "p"))
        (freshResponse (String × String × String))) = false ∧
      (freshResponse (String × String × String)).DataSourceData = none ∧
      (freshResponse (String × String × String)).ResourceData = none ∧
      mergeValues (requestOf (.Known "h") .Null (.Known "p")).Config usernameEnv
        = ("h", "u", "p") ∧
      ((∃ client : String × String × String,
          (Configure echoClient usernameEnv (requestOf (.Known "h") .Null (.Known "p"))
            (freshResponse _)).resp.DataSourceData = some client ∧
          (Configure echoClient usernameEnv (requestOf (.Known "h") .Null (.Known "p"))
            (freshResponse _)).resp.ResourceData = some client) ↔
        (allKnown (requestOf (.Known "h") .Null (.Known "p")).Config ∧
          ("h" ≠ "" ∧ "u" ≠ "" ∧ "p" ≠ "") ∧
          ∃ client : String × String × String, echoClient "h" "u" "p" = .ok client)) :=
  ⟨rfl, rfl, rfl, by decide,
    (C10_handle_or_diagnostics echoClient usernameEnv (requestOf (.Known "h") .Null (.Known "p"))
      (freshResponse _) "h" "u" "p" rfl rfl rfl (by decide)).2⟩

/-! ## Determinism -/

/-- The merge reads the environment only at the three variables. -/
theorem mergeValues_env_congr (config : windowscaProviderModel) (env1 env2 : os.Env)
    (hh : env1 "WINDOWSCA_HOSTNAME" = env2 "WINDOWSCA_HOSTNAME")
    (hu : env1 "WINDOWSCA_USERNAME" = env2 "WINDOWSCA_USERNAME")
    (hp : env1 "WINDOWSCA_PASSWORD" = env2 "WINDOWSCA_PASSWORD") :
    mergeValues config env1 = mergeValues config env2 := by
  simp [mergeValues, os.Getenv, hh, hu, hp]

/-- C11 (determinism). The result of `Configure` is determined by its inputs:
two invocations on the same request and the same starting response (an empty
one in particular), under environments that hold the same values for
`WINDOWSCA_HOSTNAME`, `WINDOWSCA_USERNAME` and `WINDOWSCA_PASSWORD` and with
constructors that answer the merged credentials alike, yield the same run: the
same diagnostics in the same order, the same slots, the same merged values and
the same constructor calls. -/
theorem C11_determinism {Client : Type} (NewClient1 NewClient2 : ClientConstructor Client)
    (env1 env2 : os.Env) (req : ConfigureRequest) (resp : ConfigureResponse Client)
    (hh : env1 "WINDOWSCA_HOSTNAME" = env2 "WINDOWSCA_HOSTNAME")
    (hu : env1 "WINDOWSCA_USERNAME" = env2 "WINDOWSCA_USERNAME")
    (hp : env1 "WINDOWSCA_PASSWORD" = env2 "WINDOWSCA_PASSWORD")
    (hctor : NewClient1 (mergeValues req.Config env1).1 (mergeValues req.Config env1).2.1
        (mergeValues req.Config env1).2.2 =
      NewClient2 (mergeValues req.Config env1).1 (mergeValues req.Config env1).2.1
        (mergeValues req.Config env1).2.2) :
    Configure NewClient1 env1 req resp = Configure NewClient2 env2 req resp := by
  have hmv := mergeValues_env_congr req.Config env1 env2 hh hu hp
  rcases Configure_cases NewClient1 env1 req resp with
    ⟨hp1, hrun⟩ | ⟨hp1, hk, hrun⟩ | ⟨hp1, hk, hm, hrun⟩ | ⟨err, hp1, hk, hm, hc, hrun⟩ |
    ⟨client, hp1, hk, hm, hc, hrun⟩
  · rw [hrun, Configure_decodeError NewClient2 env2 req resp hp1]
  · rw [hrun, Configure_unknown NewClient2 env2 req resp hp1 hk]
  · rw [hmv] at hm
    rw [hrun, Configure_missing NewClient2 env2 req resp hp1 hk hm, hmv]
  · rw [hctor, hmv] at hc
    rw [hmv] at hm
    rw [hrun, Configure_clientError NewClient2 env2 req resp hp1 hk hm err hc, hmv]
  · rw [hctor, hmv] at hc
    rw [hmv] at hm
    rw [hrun, Configure_ok NewClient2 env2 req resp hp1 hk hm client hc, hmv]

/-- C11 at the spec's example, under two environments that differ only outside
the three variables: the two runs are the same. -/
theorem C11_determinism_witness :
    usernameEnv "WINDOWSCA_HOSTNAME" = otherEnv "WINDOWSCA_HOSTNAME" ∧
      usernameEnv "WINDOWSCA_USERNAME" = otherEnv "WINDOWSCA_USERNAME" ∧
      usernameEnv "WINDOWSCA_PASSWORD" = otherEnv "WINDOWSCA_PASSWORD" ∧
      usernameEnv "HOME" ≠ otherEnv "HOME" ∧
      echoClient
          (mergeValues (requestOf (.Known "h") .Null (.Known "p")).Config usernameEnv).1
          (mergeValues (requestOf (.Known "h") .Null (.Known "p")).Config usernameEnv).2.1
          (mergeValues (requestOf (.Known "h") .Null (.Known "p")).Config usernameEnv).2.2 =
        .ok ("h", "u", "p") ∧
      Configure echoClient usernameEnv (requestOf (.Known "h") .Null (.Known "p"))
          (freshResponse _) =
        Configure echoClient otherEnv (requestOf (.Known "h") .Null (.Known "p"))
          (freshResponse _) :=
  ⟨by decide, by decide, by decide, by decide,
    congrArg Except.ok (show mergeValues (requestOf (.Known "h") .Null (.Known "p")).Config
      usernameEnv = ("h", "u", "p") by decide),
    C11_determinism echoClient echoClient usernameEnv otherEnv
      (requestOf (.Known "h") .Null (.Known "p")) (freshResponse _)
      (by decide) (by decide) (by decide) rfl⟩

/-! ## The schema -/

/-- C12 (schema shape). The schema set by `Schema` declares exactly three
attributes, `winrm_hostname`, `winrm_username` and `winrm_password`, under
distinct names; each is a string attribute that is optional and not required;
and `winrm_password` is the only one marked sensitive. -/
theorem C12_schema_shape :
    Schema.map Prod.fst = ["winrm_hostname", "winrm_username", "winrm_password"] ∧
      (Schema.map Prod.fst).Nodup ∧
      Schema.length = 3 ∧
      (∀ a ∈ Schema, a.2.Optional = true ∧ a.2.Required = false) ∧
      (∀ a ∈ Schema, a.2.Sensitive = true ↔ a.1 = "winrm_password") := by
  refine ⟨rfl, by decide, rfl, by decide, by decide⟩

/-! ## The environment variable named in the remediation text -/

set_option maxRecDepth 100000 in
/-- The detail of a field's unknown-value error names that field's variable
and no other field's. -/
theorem mentions_unknownErrorOf (f g : Field) :
    mentions (unknownErrorOf f).Detail g.envVar ↔ g = f := by
  cases f <;> cases g <;> decide

set_option maxRecDepth 100000 in
/-- The detail of a field's missing-value error names that field's variable
and no other field's. -/
theorem mentions_missingErrorOf (f g : Field) :
    mentions (missingErrorOf f).Detail g.envVar ↔ g = f := by
  cases f <;> cases g <;> decide

/-- An expected unknown-value error is the error of a field whose attribute is
unknown. -/
theorem unknownErrors_field (config : windowscaProviderModel) (d : Diagnostic)
    (h : d ∈ unknownErrors config) :
    ∃ f : Field, d = unknownErrorOf f ∧ (f.attr config).IsUnknown = true := by
  unfold unknownErrors at h
  simp only [List.mem_append] at h
  rcases h with (h | h) | h
  · by_cases c : config.WinrmHostname.IsUnknown = true
    · rw [if_pos c, List.mem_singleton] at h; exact ⟨.hostname, h, c⟩
    · rw [if_neg c] at h; simp at h
  · by_cases c : config.WinrmUsername.IsUnknown = true
    · rw [if_pos c, List.mem_singleton] at h; exact ⟨.username, h, c⟩
    · rw [if_neg c] at h; simp at h
  · by_cases c : config.WinrmPassword.IsUnknown = true
    · rw [if_pos c, List.mem_singleton] at h; exact ⟨.password, h, c⟩
    · rw [if_neg c] at h; simp at h

/-- An expected missing-value error is the error of a field whose merged value
is empty. -/
theorem missingErrors_field (values : String × String × String) (d : Diagnostic)
    (h : d ∈ missingErrors values.1 values.2.1 values.2.2) :
    ∃ f : Field, d = missingErrorOf f ∧ f.merged values = "" := by
  unfold missingErrors at h
  simp only [List.mem_append] at h
  rcases h with (h | h) | h
  · by_cases c : values.1 = ""
    · rw [if_pos c, List.mem_singleton] at h; exact ⟨.hostname, h, c⟩
    · rw [if_neg c] at h; simp at h
  · by_cases c : values.2.1 = ""
    · rw [if_pos c, List.mem_singleton] at h; exact ⟨.username, h, c⟩
    · rw [if_neg c] at h; simp at h
  · by_cases c : values.2.2 = ""
    · rw [if_pos c, List.mem_singleton] at h; exact ⟨.password, h, c⟩
    · rw [if_neg c] at h; simp at h

/-- C13 (matching environment variable in the remediation text). In every run
of `Configure`, every unknown-value or missing-value error that the run adds
is the error of one field, added because that field's attribute is unknown or
because that field's merged value is empty, and its detail text contains the
name of the environment variable of that very field (`WINDOWSCA_HOSTNAME` for
hostname, `WINDOWSCA_USERNAME` for username, `WINDOWSCA_PASSWORD` for
password) and contains neither of the other two names. -/
theorem C13_matching_env_var {Client : Type} (NewClient : ClientConstructor Client)
    (env : os.Env) (req : ConfigureRequest) (resp : ConfigureResponse Client) :
    ∀ d ∈ appended req resp (Configure NewClient env req resp),
      (isUnknownValueError d ∨ isMissingValueError d) →
      ∃ f : Field,
        ((d = unknownErrorOf f ∧ (f.attr req.Config).IsUnknown = true) ∨
          (d = missingErrorOf f ∧ f.merged (mergeValues req.Config env) = "")) ∧
        ∀ g : Field, mentions d.Detail g.envVar ↔ g = f := by
  intro d hd hkind
  rcases Configure_cases NewClient env req resp with
    ⟨_, hrun⟩ | ⟨_, _, hrun⟩ | ⟨_, _, _, hrun⟩ | ⟨err, _, _, _, _, hrun⟩ |
    ⟨client, _, _, _, _, hrun⟩
  · simp [appended, hrun] at hd
  · have hmem : d ∈ unknownErrors req.Config := by simpa [appended, hrun] using hd
    obtain ⟨f, hf, hc⟩ := unknownErrors_field req.Config d hmem
    exact ⟨f, Or.inl ⟨hf, hc⟩, fun g => hf ▸ mentions_unknownErrorOf f g⟩
  · have hmem : d ∈ missingErrors (mergeValues req.Config env).1
        (mergeValues req.Config env).2.1 (mergeValues req.Config env).2.2 := by
      simpa [appended, hrun] using hd
    obtain ⟨f, hf, hc⟩ := missingErrors_field (mergeValues req.Config env) d hmem
    exact ⟨f, Or.inr ⟨hf, hc⟩, fun g => hf ▸ mentions_missingErrorOf f g⟩
  · have hmem : d = clientError err := by simpa [appended, hrun] using hd
    rcases hkind with hk | hk
    · exact absurd ⟨err, hmem⟩ (isUnknownValueError_exclusive d hk).2
    · exact absurd ⟨err, hmem⟩ (isMissingValueError_not_client d hk)
  · simp [appended, hrun] at hd

set_option maxRecDepth 100000 in
/-- C13 at hostname and password unknown: the unknown-value error added for the
password names `WINDOWSCA_PASSWORD` and neither other variable. -/
theorem C13_matching_env_var_witness :
    unknownPassword ∈ appended (requestOf .Unknown (.Known "u") .Unknown)
        (freshResponse (String × String × String))
        (Configure echoClient emptyEnv (requestOf .Unknown (.Known "u") .Unknown)
          (freshResponse _)) ∧
      (isUnknownValueError unknownPassword ∨ isMissingValueError unknownPassword) ∧
      ∃ f : Field,
        ((unknownPassword = unknownErrorOf f ∧
            (f.attr (requestOf .Unknown (.Known "u") .Unknown).Config).IsUnknown = true) ∨
          (unknownPassword = missingErrorOf f ∧
            f.merged (mergeValues (requestOf .Unknown (.Known "u") .Unknown).Config emptyEnv)
              = "")) ∧
        ∀ g : Field, mentions unknownPassword.Detail g.envVar ↔ g = f :=
  ⟨by decide, Or.inl (Or.inr (Or.inr rfl)),
    C13_matching_env_var echoClient emptyEnv (requestOf .Unknown (.Known "u") .Unknown)
      (freshResponse _) unknownPassword (by decide) (Or.inl (Or.inr (Or.inr rfl)))⟩

/-! ## Fields are merged and checked independently -/

/-- The merged value of a field, as a function of the field's own attribute
and variable. -/
theorem merged_mergeValues (config : windowscaProviderModel) (env : os.Env) (f : Field) :
    f.merged (mergeValues config env) =
      if (f.attr config).IsNull then os.Getenv env f.envVar else (f.attr config).ValueString := by
  cases f <;> simp [Field.merged, Field.attr, Field.envVar, mergeValues] <;>
    split <;> simp_all

/-- The missing-value error of a field is expected exactly when the field's
component is empty. -/
theorem missingErrorOf_mem_missingErrors (values : String × String × String) (f : Field) :
    missingErrorOf f ∈ missingErrors values.1 values.2.1 values.2.2 ↔ f.merged values = "" := by
  cases f
  · exact missingErrors_mem_host _ _ _
  · exact missingErrors_mem_username _ _ _
  · exact missingErrors_mem_password _ _ _

/-- Once decoding left no error and every attribute is known, the run adds the
missing-value error of a field exactly when the field's merged value is
empty. -/
theorem missingErrorOf_mem_appended {Client : Type} (NewClient : ClientConstructor Client)
    (env : os.Env) (req : ConfigureRequest) (resp : ConfigureResponse Client)
    (hpre : Diagnostics.HasError (decoded req resp) = false)
    (hk : allKnown req.Config) (f : Field) :
    missingErrorOf f ∈ appended req resp (Configure NewClient env req resp) ↔
      f.merged (mergeValues req.Config env) = "" := by
  have hmiss : isMissingValueError (missingErrorOf f) := by
    cases f
    · exact Or.inl rfl
    · exact Or.inr (Or.inl rfl)
    · exact Or.inr (Or.inr rfl)
  rcases Configure_cases NewClient env req resp with
    ⟨hp, _⟩ | ⟨_, hnk, _⟩ | ⟨_, _, _, hrun⟩ | ⟨err, _, _, hm, _, hrun⟩ |
    ⟨client, _, _, hm, _, hrun⟩
  · rw [hpre] at hp; exact Bool.noConfusion hp
  · exact absurd hk hnk
  · have happ : appended req resp (Configure NewClient env req resp)
        = missingErrors (mergeValues req.Config env).1 (mergeValues req.Config env).2.1
            (mergeValues req.Config env).2.2 := by
      simp [appended, hrun]
    rw [happ]
    exact missingErrorOf_mem_missingErrors _ f
  · have happ : appended req resp (Configure NewClient env req resp) = [clientError err] := by
      simp [appended, hrun]
    rw [happ, ← missingErrorOf_mem_missingErrors, hm]
    constructor
    · intro h
      rw [List.mem_singleton] at h
      exact absurd ⟨err, h⟩ (isMissingValueError_not_client _ hmiss)
    · intro h; simp at h
  · have happ : appended req resp (Configure NewClient env req resp) = [] := by
      simp [appended, hrun]
    rw [happ, ← missingErrorOf_mem_missingErrors, hm]

/-- C14 (no cross-field dependency in the merge). Take two runs of `Configure`
on configurations without unknown attribute, after the same decoding
diagnostics left no error, and a field whose attribute and whose environment
variable are the same in both runs; the attributes and variables of the other
two fields, and the constructors, may differ. Then both runs merge, the merged
value of the field is the same in both, it is the value determined by the
field's own attribute and variable (the attribute's string unless the
attribute is null, else the variable's value), and the missing-value error of
the field is reported in the one run exactly when it is in the other. -/
theorem C14_no_cross_field_dependency {Client : Type}
    (NewClient1 NewClient2 : ClientConstructor Client) (env1 env2 : os.Env)
    (config1 config2 : windowscaProviderModel) (diags : Diagnostics)
    (resp : ConfigureResponse Client) (f : Field)
    (hpre : Diagnostics.HasError (decoded { Config := config1, diags := diags } resp) = false)
    (hk1 : allKnown config1) (hk2 : allKnown config2)
    (hattr : f.attr config1 = f.attr config2)
    (henv : env1 f.envVar = env2 f.envVar) :
    ∃ values1 values2 : String × String × String,
      (Configure NewClient1 env1 { Config := config1, diags := diags } resp).merged
        = some values1 ∧
      (Configure NewClient2 env2 { Config := config2, diags := diags } resp).merged
        = some values2 ∧
      f.merged values1 = f.merged values2 ∧
      f.merged values1 =
        (if (f.attr config1).IsNull then os.Getenv env1 f.envVar
          else (f.attr config1).ValueString) ∧
      (missingErrorOf f ∈ appended { Config := config1, diags := diags } resp
          (Configure NewClient1 env1 { Config := config1, diags := diags } resp) ↔
        missingErrorOf f ∈ appended { Config := config2, diags := diags } resp
          (Configure NewClient2 env2 { Config := config2, diags := diags } resp)) := by
  have hpre2 : Diagnostics.HasError (decoded { Config := config2, diags := diags } resp)
      = false := hpre
  have hsame : f.merged (mergeValues config1 env1) = f.merged (mergeValues config2 env2) := by
    rw [merged_mergeValues, merged_mergeValues, hattr]
    simp only [os.Getenv, henv]
  refine ⟨mergeValues config1 env1, mergeValues config2 env2,
    Configure_merged NewClient1 env1 _ resp hpre hk1,
    Configure_merged NewClient2 env2 _ resp hpre2 hk2, hsame,
    merged_mergeValues config1 env1 f, ?_⟩
  rw [missingErrorOf_mem_appended NewClient1 env1 _ resp hpre hk1 f,
    missingErrorOf_mem_appended NewClient2 env2 _ resp hpre2 hk2 f]
  exact ⟨fun h => hsame ▸ h, fun h => hsame.symm ▸ h⟩

/-- C14 for the hostname, at two runs that share the null hostname attribute
and an absent `WINDOWSCA_HOSTNAME` but differ in the username and password
attributes and in `WINDOWSCA_USERNAME`: the merged hostname is empty in both
and the missing-hostname error is reported in both. -/
theorem C14_no_cross_field_dependency_witness :
    Diagnostics.HasError (decoded (requestOf .Null .Null (.Known "p"))
        (freshResponse (String × String × String))) = false ∧
      allKnown (requestOf .Null .Null (.Known "p")).Config ∧
      allKnown (requestOf .Null (.Known "v") .Null).Config ∧
      Field.hostname.attr (requestOf .Null .Null (.Known "p")).Config =
        Field.hostname.attr (requestOf .Null (.Known "v") .Null).Config ∧
      usernameEnv Field.hostname.envVar = emptyEnv Field.hostname.envVar ∧
      ∃ values1 values2 : String × String × String,
        (Configure echoClient usernameEnv (requestOf .Null .Null (.Known "p"))
          (freshResponse _)).merged = some values1 ∧
        (Configure boomClient emptyEnv (requestOf .Null (.Known "v") .Null)
          (freshResponse _)).merged = some values2 ∧
        Field.hostname.merged values1 = Field.hostname.merged values2 ∧
        Field.hostname.merged values1 =
          (if (Field.hostname.attr (requestOf .Null .Null (.Known "p")).Config).IsNull then
            os.Getenv usernameEnv Field.hostname.envVar
          else (Field.hostname.attr (requestOf .Null .Null (.Known "p")).Config).ValueString) ∧
        (missingErrorOf .hostname ∈ appended (requestOf .Null .Null (.Known "p"))
            (freshResponse _)
            (Configure echoClient usernameEnv (requestOf .Null .Null (.Known "p"))
              (freshResponse _)) ↔
          missingErrorOf .hostname ∈ appended (requestOf .Null (.Known "v") .Null)
            (freshResponse _)
            (Configure boomClient emptyEnv (requestOf .Null (.Known "v") .Null)
              (freshResponse _))) :=
  ⟨rfl, by decide, by decide, rfl, by decide,
    C14_no_cross_field_dependency echoClient boomClient usernameEnv emptyEnv
      (requestOf .Null .Null (.Known "p")).Config (requestOf .Null (.Known "v") .Null).Config
      [] (freshResponse _) .hostname rfl (by decide) (by decide) rfl (by decide)⟩

/-- C15 (an explicitly set empty string is not rescued by the environment).
When decoding left no error and no attribute is unknown, for each field whose
attribute is the known empty string, whatever the environment holds: the
merged value of the field is empty, `Configure` adds the missing-value error
of the field, and the constructor is not invoked. -/
theorem C15_empty_string_not_rescued {Client : Type} (NewClient : ClientConstructor Client)
    (env : os.Env) (req : ConfigureRequest) (resp : ConfigureResponse Client) (f : Field)
    (hpre : Diagnostics.HasError (decoded req resp) = false)
    (hk : allKnown req.Config)
    (hset : f.attr req.Config = .Known "") :
    (∃ values : String × String × String,
        (Configure NewClient env req resp).merged = some values ∧ f.merged values = "") ∧
      missingErrorOf f ∈ appended req resp (Configure NewClient env req resp) ∧
      (Configure NewClient env req resp).calls = [] := by
  have hempty : f.merged (mergeValues req.Config env) = "" := by
    rw [merged_mergeValues, hset]; rfl
  have hm : missingErrors (mergeValues req.Config env).1 (mergeValues req.Config env).2.1
      (mergeValues req.Config env).2.2 ≠ [] := by
    intro h
    rw [← missingErrorOf_mem_missingErrors, h] at hempty
    simp at hempty
  refine ⟨⟨_, Configure_merged NewClient env req resp hpre hk, hempty⟩,
    (missingErrorOf_mem_appended NewClient env req resp hpre hk f).2 hempty, ?_⟩
  rw [Configure_missing NewClient env req resp hpre hk hm]

set_option maxRecDepth 100000 in
/-- C15 for the username set to the empty string while `WINDOWSCA_USERNAME`
holds `u`: the merged username is empty, the missing-username error is the one
diagnostic returned, and the constructor is not invoked. -/
theorem C15_empty_string_not_rescued_witness :
    usernameEnv "WINDOWSCA_USERNAME" = some "u" ∧
      Diagnostics.HasError (decoded (requestOf (.Known "h") (.Known "") (.Known "p"))
        (freshResponse (String × String × String))) = false ∧
      allKnown (requestOf (.Known "h") (.Known "") (.Known "p")).Config ∧
      Field.username.attr (requestOf (.Known "h") (.Known "") (.Known "p")).Config
        = .Known "" ∧
      (Configure echoClient usernameEnv (requestOf (.Known "h") (.Known "") (.Known "p"))
        (freshResponse _)).merged = some ("h", "", "p") ∧
      (Configure echoClient usernameEnv (requestOf (.Known "h") (.Known "") (.Known "p"))
        (freshResponse _)).resp.Diagnostics = [missingUsername] ∧
      missingErrorOf .username ∈ appended (requestOf (.Known "h") (.Known "") (.Known "p"))
        (freshResponse _)
        (Configure echoClient usernameEnv (requestOf (.Known "h") (.Known "") (.Known "p"))
          (freshResponse _)) ∧
      (Configure echoClient usernameEnv (requestOf (.Known "h") (.Known "") (.Known "p"))
        (freshResponse _)).calls = [] :=
  ⟨by decide, rfl, by decide, rfl, by decide, by decide,
    (C15_empty_string_not_rescued echoClient usernameEnv
      (requestOf (.Known "h") (.Known "") (.Known "p")) (freshResponse _) .username
      rfl (by decide) rfl).2.1,
    (C15_empty_string_not_rescued echoClient usernameEnv
      (requestOf (.Known "h") (.Known "") (.Known "p")) (freshResponse _) .username
      rfl (by decide) rfl).2.2⟩

/-! ## Decoding failure -/

/-- Appending diagnostics that are pairwise distinct and not yet in the
collection is list concatenation. -/
theorem append_eq_of_nodup (new : List Diagnostic) :
    ∀ acc : Diagnostics, new.Nodup → (∀ x ∈ new, x ∉ acc) →
      Diagnostics.Append acc new = acc ++ new := by
  induction new with
  | nil => intro acc _ _; simp [Diagnostics.Append]
  | cons d rest ih =>
    intro acc hnd hfresh
    have hd : Diagnostics.Contains acc d = false := by
      simp only [Diagnostics.Contains, List.any_eq_false, decide_eq_true_eq]
      intro x hx hxd
      exact hfresh d (List.mem_cons_self d rest) (hxd ▸ hx)
    have hstep : Diagnostics.Append acc (d :: rest) = Diagnostics.Append (acc ++ [d]) rest := by
      simp [Diagnostics.Append, hd]
    rw [hstep, ih (acc ++ [d]) (List.nodup_cons.1 hnd).2]
    · simp
    · intro x hx hmem
      rcases List.mem_append.1 hmem with h | h
      · exact hfresh x (List.mem_cons_of_mem d hx) h
      · rw [List.mem_singleton] at h
        exact (List.nodup_cons.1 hnd).1 (h ▸ hx)

/-- On a response without diagnostics, duplicate-free decoding diagnostics are
taken over as they are. -/
theorem decoded_eq_diags {Client : Type} (req : ConfigureRequest)
    (resp : ConfigureResponse Client) (hfresh : resp.Diagnostics = [])
    (hnodup : req.diags.Nodup) : decoded req resp = req.diags := by
  unfold decoded
  rw [hfresh, append_eq_of_nodup req.diags [] hnodup (fun _ _ h => by simp at h)]
  simp

/-- Every run returns the diagnostics present after line 62, followed by what
the gates added. -/
theorem Configure_diagnostics {Client : Type} (NewClient : ClientConstructor Client)
    (env : os.Env) (req : ConfigureRequest) (resp : ConfigureResponse Client) :
    (Configure NewClient env req resp).resp.Diagnostics =
      decoded req resp ++ appended req resp (Configure NewClient env req resp) := by
  rcases Configure_cases NewClient env req resp with
    ⟨_, hrun⟩ | ⟨_, _, hrun⟩ | ⟨_, _, _, hrun⟩ | ⟨err, _, _, _, _, hrun⟩ |
    ⟨client, _, _, _, _, hrun⟩ <;>
  simp [appended, hrun]

/-- C16 (decode failure short-circuits, decode diagnostics are preserved). Let
`Configure` start from a response without diagnostics and let the decoding
diagnostics be free of duplicates. If they hold at least one error, the
diagnostics returned are the decoding diagnostics and nothing else: no
unknown-value, missing-value or client-construction error is added, the merge
is not reached, the constructor is not invoked and neither slot is assigned.
And in every such run, whether decoding failed or not, the decoding
diagnostics are an initial segment of the diagnostics returned. -/
theorem C16_decode_failure {Client : Type} (NewClient : ClientConstructor Client)
    (env : os.Env) (req : ConfigureRequest) (resp : ConfigureResponse Client)
    (hfresh : resp.Diagnostics = []) (hnodup : req.diags.Nodup) :
    (Diagnostics.HasError req.diags = true →
        (Configure NewClient env req resp).resp.Diagnostics = req.diags ∧
        appended req resp (Configure NewClient env req resp) = [] ∧
        (Configure NewClient env req resp).merged = none ∧
        (Configure NewClient env req resp).calls = [] ∧
        (Configure NewClient env req resp).resp.DataSourceData = resp.DataSourceData ∧
        (Configure NewClient env req resp).resp.ResourceData = resp.ResourceData) ∧
      req.diags <+: (Configure NewClient env req resp).resp.Diagnostics := by
  have hdec := decoded_eq_diags req resp hfresh hnodup
  constructor
  · intro herr
    have hpre : Diagnostics.HasError (decoded req resp) = true := by rw [hdec]; exact herr
    have hrun := Configure_decodeError NewClient env req resp hpre
    refine ⟨?_, ?_, ?_, ?_, ?_, ?_⟩
    · rw [hrun]; exact hdec
    · simp [appended, hrun]
    · rw [hrun]
    · rw [hrun]
    · rw [hrun]
    · rw [hrun]
  · rw [Configure_diagnostics, hdec]
    exact ⟨_, rfl⟩

/-- C16 at a decoding that returned a warning and an error: the response holds
exactly these two diagnostics, no slot is set and the constructor is not
invoked, although all three merged values would be empty. -/
theorem C16_decode_failure_witness :
    (freshResponse (String × String × String)).Diagnostics = [] ∧
      failedRequest.diags.Nodup ∧
      Diagnostics.HasError failedRequest.diags = true ∧
      (Configure echoClient emptyEnv failedRequest (freshResponse _)).resp.Diagnostics =
        failedRequest.diags ∧
      (Configure echoClient emptyEnv failedRequest (freshResponse _)).calls = [] ∧
      (Configure echoClient emptyEnv failedRequest (freshResponse _)).resp.DataSourceData
        = none ∧
      failedRequest.diags <+:
        (Configure echoClient emptyEnv failedRequest (freshResponse _)).resp.Diagnostics :=
  ⟨rfl, by decide, rfl,
    ((C16_decode_failure echoClient emptyEnv failedRequest (freshResponse _) rfl
      (by decide)).1 rfl).1,
    ((C16_decode_failure echoClient emptyEnv failedRequest (freshResponse _) rfl
      (by decide)).1 rfl).2.2.2.1,
    ((C16_decode_failure echoClient emptyEnv failedRequest (freshResponse _) rfl
      (by decide)).1 rfl).2.2.2.2.1,
    (C16_decode_failure echoClient emptyEnv failedRequest (freshResponse _) rfl
      (by decide)).2⟩

end windowsca
